import Mathlib

/-!
Verification development for the GSH_Vulkan draw module
(Source/gs/GSH_Vulkan/GSH_VulkanDraw.cpp).

Part A embeds the CPU-side draw orchestrator: the committed draw state
(`DrawState`), the state setters with their flush-on-change behaviour, vertex
batching (`AddVertices` / `FlushVertices`) and the frame-boundary hooks.  The
mutable C++ object is modelled as explicit state passing; the side effects
that matter to the specification (FlushVertices invocations, draw calls,
out-of-band frame submissions, assertion failures) are modelled as an emitted
action trace.

Part B embeds the pipeline cache and the descriptor-set cache as association
lists keyed exactly as in the source.

Part C embeds the generated fragment program (CDraw::CreateFragmentShader and
the static helpers GetDepth, ClampTexCoord, GetClutColor, GetTextureColor,
ExpandAlpha, GetAlphaABD, GetAlphaC, WriteToFramebuffer, WriteToDepthbuffer)
as a pure function over rational shader values, with the helpers of
CMemoryUtils (declared outside this module) abstracted as parameters.

Part D embeds the order in which CreateFragmentShader emits the fragment
program operations, for the invocation-interlock containment property.
-/

namespace GSH

/-! ## Shared constants (GSH_VulkanDraw.cpp, lines 24-27) -/

def DRAW_AREA_SIZE : Nat := 1024

def MAX_VERTEX_COUNT : Nat := 1024 * 128

/-! ## Enumerations used by the capability descriptor.

The C++ stores these as small unsigned bitfield members compared against
CGSHandler enum constants; only the listed values are generated by the
callers, every other value hits an unreachable-state assertion in the
fragment-shader synthesizer, so they are embedded as inductive types. -/

inductive FbFormat
| PSMCT32
| PSMCT24
| PSMCT16
| PSMCT16S
deriving DecidableEq

inductive DepthFormat
| PSMZ32
| PSMZ24
| PSMZ16
| PSMZ16S
deriving DecidableEq

inductive TexFormat
| PSMCT32
| PSMCT24
| PSMCT16
| PSMCT16S
| PSMT8
| PSMT4
| PSMT8H
| PSMT4HL
| PSMT4HH
deriving DecidableEq

inductive ClutFormat
| PSMCT32
| PSMCT24
| PSMCT16
| PSMCT16S
deriving DecidableEq

inductive ClampMode
| REPEAT
| CLAMP
| REGION_CLAMP
| REGION_REPEAT
deriving DecidableEq

inductive TexFunction
| MODULATE
| DECAL
| HIGHLIGHT
| HIGHLIGHT2
deriving DecidableEq

inductive AlphaTestFunc
| ALWAYS
| EQUAL
| GEQUAL
deriving DecidableEq

inductive DepthTestFunc
| ALWAYS
| NEVER
| GEQUAL
| GREATER
deriving DecidableEq

inductive AlphaABD
| CS
| CD
| ZERO
deriving DecidableEq

inductive AlphaCsel
| AS
| AD
| FIX
deriving DecidableEq

/-- The capability descriptor (PIPELINE_CAPS): the bitfield key that decides
the generated shader shape.  Bitwise equality of the C++ bitfield corresponds
to structural equality of the fields. -/
structure PIPELINE_CAPS where
  hasTexture : Bool
  hasAlphaBlending : Bool
  writeDepth : Bool
  textureHasAlpha : Bool
  textureBlackIsTransparent : Bool
  maskColor : Bool
  texClampU : ClampMode
  texClampV : ClampMode
  textureFunction : TexFunction
  alphaTestFunction : AlphaTestFunc
  depthTestFunction : DepthTestFunc
  framebufferFormat : FbFormat
  depthbufferFormat : DepthFormat
  textureFormat : TexFormat
  clutFormat : ClutFormat
  alphaA : AlphaABD
  alphaB : AlphaABD
  alphaC : AlphaCsel
  alphaD : AlphaABD
deriving DecidableEq

/-- The per-flush uniform block (DRAW_PIPELINE_PUSHCONSTANTS), all fields
32-bit unsigned words, mutated only by the state setters. -/
structure DRAW_PIPELINE_PUSHCONSTANTS where
  fbBufAddr : Nat
  fbBufWidth : Nat
  fbWriteMask : Nat
  depthBufAddr : Nat
  depthBufWidth : Nat
  texBufAddr : Nat
  texBufWidth : Nat
  texWidth : Nat
  texHeight : Nat
  texCsa : Nat
  texA0 : Nat
  texA1 : Nat
  alphaRef : Nat
  clampMinU : Nat
  clampMinV : Nat
  clampMaxU : Nat
  clampMaxV : Nat
  alphaFix : Nat
deriving DecidableEq

/-- The mutable members of CDraw that the claims depend on: the committed
capability descriptor, the push-constant block, the scissor rectangle and the
two batch cursors. -/
structure DrawState where
  pipelineCaps : PIPELINE_CAPS
  pushConstants : DRAW_PIPELINE_PUSHCONSTANTS
  scissorX : Nat
  scissorY : Nat
  scissorWidth : Nat
  scissorHeight : Nat
  passVertexStart : Nat
  passVertexEnd : Nat
deriving DecidableEq

/-- The state snapshot captured by one vkCmdDraw issued from FlushVertices:
the bound pipeline key, the pushed constants, the scissor and the drawn
vertex range. -/
structure DRAW_REC where
  caps : PIPELINE_CAPS
  pushConstants : DRAW_PIPELINE_PUSHCONSTANTS
  scissorX : Nat
  scissorY : Nat
  scissorWidth : Nat
  scissorHeight : Nat
  vertexStart : Nat
  vertexCount : Nat
deriving DecidableEq

/-- Observable side effects of the orchestrator:
FlushVertices invocations, issued draw calls, out-of-band frame submissions
(m_frameCommandBuffer->Flush()), and the two assertion failures
(vertex count not a multiple of three; batch capacity overflow). -/
inductive Act
| flushCall
| draw (rec : DRAW_REC)
| frameSubmit
| assertTriangleFail
| assertCapacityFail
deriving DecidableEq

def Act.isFlushCall : Act → Bool
| .flushCall => true
| _ => false

def Act.isFrameSubmit : Act → Bool
| .frameSubmit => true
| _ => false

def Act.isTriangleFail : Act → Bool
| .assertTriangleFail => true
| _ => false

def Act.isCapacityFail : Act → Bool
| .assertCapacityFail => true
| _ => false

def countFlushCalls (l : List Act) : Nat := l.countP Act.isFlushCall

def countFrameSubmits (l : List Act) : Nat := l.countP Act.isFrameSubmit

def countTriangleFails (l : List Act) : Nat := l.countP Act.isTriangleFail

def countCapacityFails (l : List Act) : Nat := l.countP Act.isCapacityFail

/-- The draw record FlushVertices would issue from state `s`. -/
def drawRecOf (s : DrawState) : DRAW_REC :=
  { caps := s.pipelineCaps
    pushConstants := s.pushConstants
    scissorX := s.scissorX
    scissorY := s.scissorY
    scissorWidth := s.scissorWidth
    scissorHeight := s.scissorHeight
    vertexStart := s.passVertexStart
    vertexCount := s.passVertexEnd - s.passVertexStart }

/-- CDraw::FlushVertices (lines 183-246): no-op when the open batch is empty;
otherwise asserts the vertex count is a multiple of three, issues one draw
call covering exactly the batch under the current state snapshot, and
advances the batch start cursor to the end cursor. -/
def flushVertices (s : DrawState) : DrawState × List Act :=
  if s.passVertexEnd - s.passVertexStart = 0 then (s, [])
  else
    (( { s with passVertexStart := s.passVertexEnd } : DrawState),
      (if (s.passVertexEnd - s.passVertexStart) % 3 = 0 then ([] : List Act)
        else [Act.assertTriangleFail])
        ++ [Act.draw (drawRecOf s)])

/-- The nine state setters of CDraw (lines 63-168). -/
inductive Setter
| caps (v : PIPELINE_CAPS)
| framebuffer (addr width writeMask : Nat)
| depthbuffer (addr width : Nat)
| texture (bufAddr bufWidth width height csa : Nat)
| textureAlpha (a0 a1 : Nat)
| alphaTest (ref : Nat)
| textureClamp (minU minV maxU maxV : Nat)
| alphaBlend (fix : Nat)
| scissor (x y w h : Nat)
deriving DecidableEq

/-- The `changed` comparison computed at the top of each setter: the incoming
values compared against the currently committed state. -/
def setterChanged (s : DrawState) : Setter → Bool
| .caps v => decide (v ≠ s.pipelineCaps)
| .framebuffer addr width writeMask =>
    decide (s.pushConstants.fbBufAddr ≠ addr) ||
    decide (s.pushConstants.fbBufWidth ≠ width) ||
    decide (s.pushConstants.fbWriteMask ≠ writeMask)
| .depthbuffer addr width =>
    decide (s.pushConstants.depthBufAddr ≠ addr) ||
    decide (s.pushConstants.depthBufWidth ≠ width)
| .texture bufAddr bufWidth width height csa =>
    decide (s.pushConstants.texBufAddr ≠ bufAddr) ||
    decide (s.pushConstants.texBufWidth ≠ bufWidth) ||
    decide (s.pushConstants.texWidth ≠ width) ||
    decide (s.pushConstants.texHeight ≠ height) ||
    decide (s.pushConstants.texCsa ≠ csa)
| .textureAlpha a0 a1 =>
    decide (s.pushConstants.texA0 ≠ a0) ||
    decide (s.pushConstants.texA1 ≠ a1)
| .alphaTest ref => decide (s.pushConstants.alphaRef ≠ ref)
| .textureClamp minU minV maxU maxV =>
    decide (s.pushConstants.clampMinU ≠ minU) ||
    decide (s.pushConstants.clampMinV ≠ minV) ||
    decide (s.pushConstants.clampMaxU ≠ maxU) ||
    decide (s.pushConstants.clampMaxV ≠ maxV)
| .alphaBlend fix => decide (s.pushConstants.alphaFix ≠ fix)
| .scissor x y w h =>
    decide (s.scissorX ≠ x) ||
    decide (s.scissorY ≠ y) ||
    decide (s.scissorWidth ≠ w) ||
    decide (s.scissorHeight ≠ h)

/-- The commit half of each setter: writing the new values into the state. -/
def setterCommit (s : DrawState) : Setter → DrawState
| .caps v => { s with pipelineCaps := v }
| .framebuffer addr width writeMask =>
    { s with pushConstants :=
        { s.pushConstants with fbBufAddr := addr, fbBufWidth := width, fbWriteMask := writeMask } }
| .depthbuffer addr width =>
    { s with pushConstants :=
        { s.pushConstants with depthBufAddr := addr, depthBufWidth := width } }
| .texture bufAddr bufWidth width height csa =>
    { s with pushConstants :=
        { s.pushConstants with texBufAddr := bufAddr, texBufWidth := bufWidth,
                               texWidth := width, texHeight := height, texCsa := csa } }
| .textureAlpha a0 a1 =>
    { s with pushConstants := { s.pushConstants with texA0 := a0, texA1 := a1 } }
| .alphaTest ref =>
    { s with pushConstants := { s.pushConstants with alphaRef := ref } }
| .textureClamp minU minV maxU maxV =>
    { s with pushConstants :=
        { s.pushConstants with clampMinU := minU, clampMinV := minV,
                               clampMaxU := maxU, clampMaxV := maxV } }
| .alphaBlend fix =>
    { s with pushConstants := { s.pushConstants with alphaFix := fix } }
| .scissor x y w h =>
    { s with scissorX := x, scissorY := y, scissorWidth := w, scissorHeight := h }

/-- One setter call: if the incoming value equals the committed value, the
call returns immediately; otherwise FlushVertices runs first and the new
value is committed afterwards. -/
def stepSetter (s : DrawState) (e : Setter) : DrawState × List Act :=
  if setterChanged s e then
    let r := flushVertices s
    (setterCommit r.1 e, Act.flushCall :: r.2)
  else (s, [])

def runSetters (s : DrawState) : List Setter → DrawState × List Act
| [] => (s, [])
| e :: es =>
    let r1 := stepSetter s e
    let r2 := runSetters r1.1 es
    (r2.1, r1.2 ++ r2.2)

/-- The number of setter calls in a sequence whose incoming value differs
from the committed value at the moment of the call. -/
def changedCount (s : DrawState) : List Setter → Nat
| [] => 0
| e :: es => (if setterChanged s e then 1 else 0) + changedCount (stepSetter s e).1 es

/-- The frame-command-buffer Flush: the pre-submission hook flushes the
pending batch (CDraw::PreFlushFrameCommandBuffer), the frame is submitted
out of band, then the post-submission hook resets both batch cursors to zero
(CDraw::PostFlushFrameCommandBuffer, lines 248-256). -/
def frameFlushStep (s : DrawState) : DrawState × List Act :=
  (( { (flushVertices s).1 with passVertexStart := 0, passVertexEnd := 0 } : DrawState),
    (Act.flushCall :: (flushVertices s).2) ++ [Act.frameSubmit])

/-- CDraw::AddVertices (lines 170-181) with `amount` the length of the
appended run: on capacity overflow the frame command buffer is flushed out of
band and the capacity assertion is re-checked, then the run is appended at
the write cursor. -/
def addVerticesStep (s : DrawState) (amount : Nat) : DrawState × List Act :=
  if s.passVertexEnd + amount > MAX_VERTEX_COUNT then
    (( { (frameFlushStep s).1 with
          passVertexEnd := (frameFlushStep s).1.passVertexEnd + amount } : DrawState),
      (frameFlushStep s).2 ++
        (if (frameFlushStep s).1.passVertexEnd + amount > MAX_VERTEX_COUNT then
          [Act.assertCapacityFail]
        else ([] : List Act)))
  else
    (( { s with passVertexEnd := s.passVertexEnd + amount } : DrawState), [])

/-- External events driving the orchestrator: a setter call, an AddVertices
call, an explicit FlushVertices call (also the pre-submission hook), and a
frame-command-buffer flush with both hooks. -/
inductive Ev
| set (e : Setter)
| add (n : Nat)
| flush
| frameFlush
deriving DecidableEq

def stepEv (s : DrawState) : Ev → DrawState × List Act
| .set e => stepSetter s e
| .add n => addVerticesStep s n
| .flush => ((flushVertices s).1, Act.flushCall :: (flushVertices s).2)
| .frameFlush => frameFlushStep s

def runEvs (s : DrawState) : List Ev → DrawState × List Act
| [] => (s, [])
| e :: es =>
    let r1 := stepEv s e
    let r2 := runEvs r1.1 es
    (r2.1, r1.2 ++ r2.2)

/-- Zeroed capability descriptor (m_pipelineCaps <<= 0 in the constructor). -/
def caps0 : PIPELINE_CAPS :=
  { hasTexture := false
    hasAlphaBlending := false
    writeDepth := false
    textureHasAlpha := false
    textureBlackIsTransparent := false
    maskColor := false
    texClampU := .REPEAT
    texClampV := .REPEAT
    textureFunction := .MODULATE
    alphaTestFunction := .ALWAYS
    depthTestFunction := .ALWAYS
    framebufferFormat := .PSMCT32
    depthbufferFormat := .PSMZ32
    textureFormat := .PSMCT32
    clutFormat := .PSMCT32
    alphaA := .CS
    alphaB := .CS
    alphaC := .AS
    alphaD := .CS }

def pushConstants0 : DRAW_PIPELINE_PUSHCONSTANTS :=
  { fbBufAddr := 0, fbBufWidth := 0, fbWriteMask := 0
    depthBufAddr := 0, depthBufWidth := 0
    texBufAddr := 0, texBufWidth := 0, texWidth := 0, texHeight := 0, texCsa := 0
    texA0 := 0, texA1 := 0, alphaRef := 0
    clampMinU := 0, clampMinV := 0, clampMaxU := 0, clampMaxV := 0
    alphaFix := 0 }

/-- Freshly constructed CDraw state: zeroed members, empty batch. -/
def initState : DrawState :=
  { pipelineCaps := caps0
    pushConstants := pushConstants0
    scissorX := 0, scissorY := 0, scissorWidth := 0, scissorHeight := 0
    passVertexStart := 0, passVertexEnd := 0 }

/-- A concrete state with framebuffer address 100 committed and a nonempty
pending batch of one triangle, used by the setter scenarios. -/
def stateFbA : DrawState :=
  { pipelineCaps := caps0
    pushConstants := { pushConstants0 with fbBufAddr := 100, fbBufWidth := 64, fbWriteMask := 7 }
    scissorX := 0, scissorY := 0, scissorWidth := 0, scissorHeight := 0
    passVertexStart := 0, passVertexEnd := 3 }

/-! ## Part B: pipeline cache and descriptor-set cache.

The pipeline cache maps a full capability descriptor to the compiled pipeline
object; the descriptor-set cache (an unordered_map member) maps the
descriptor subset key to an allocated descriptor set.  Both are embedded as
association lists with a fresh-handle counter; neither ever removes an
entry, mirroring the source, which only inserts. -/

/-- A compiled pipeline object; `id` stands for the underlying Vulkan
handles, `descriptorSetLayout` for the layout handle created with it. -/
structure PIPELINE where
  id : Nat
  descriptorSetLayout : Nat
deriving DecidableEq

/-- The subset of PIPELINE_CAPS keying the descriptor-set cache
(DESCRIPTORSET_CAPS, built in FlushVertices, lines 220-224). -/
structure DESCRIPTORSET_CAPS where
  hasTexture : Bool
  framebufferFormat : FbFormat
  depthbufferFormat : DepthFormat
  textureFormat : TexFormat
deriving DecidableEq

/-- The projection of a full capability descriptor onto the descriptor-set
subset key, exactly the four assignments in FlushVertices. -/
def deriveDescriptorSetCaps (caps : PIPELINE_CAPS) : DESCRIPTORSET_CAPS :=
  { hasTexture := caps.hasTexture
    framebufferFormat := caps.framebufferFormat
    depthbufferFormat := caps.depthbufferFormat
    textureFormat := caps.textureFormat }

/-- An allocated descriptor set; `id` stands for the VkDescriptorSet handle,
`layout` records the layout it was allocated against. -/
structure DESCRIPTOR_SET where
  id : Nat
  layout : Nat
deriving DecidableEq

def assocFind {κ α : Type} [DecidableEq κ] : List (κ × α) → κ → Option α
| [], _ => none
| (k, v) :: rest, key => if k = key then some v else assocFind rest key

structure PipelineCache where
  entries : List (PIPELINE_CAPS × PIPELINE)
  nextId : Nat
deriving DecidableEq

/-- CPipelineCache::TryGetPipeline: cache lookup by capability descriptor. -/
def tryGetPipeline (c : PipelineCache) (caps : PIPELINE_CAPS) : Option PIPELINE :=
  assocFind c.entries caps

/-- The lookup-or-create path of FlushVertices (lines 191-196): TryGetPipeline
followed, on a miss, by CreateDrawPipeline and RegisterPipeline.  Creation
produces fresh handles, registration inserts the pipeline under its
descriptor and returns it. -/
def getOrCreatePipeline (c : PipelineCache) (caps : PIPELINE_CAPS) :
    PIPELINE × PipelineCache :=
  match tryGetPipeline c caps with
  | some p => (p, c)
  | none =>
      let p : PIPELINE := { id := c.nextId, descriptorSetLayout := c.nextId }
      (p, { entries := (caps, p) :: c.entries, nextId := c.nextId + 1 })

structure DescriptorSetCache where
  entries : List (DESCRIPTORSET_CAPS × DESCRIPTOR_SET)
  nextId : Nat
deriving DecidableEq

/-- CDraw::PrepareDescriptorSet (lines 258-364): return the cached set for
the subset key when present; otherwise allocate one set from the pool against
the given layout, populate it, insert it under the subset key and return
it.  Nothing is ever removed. -/
def prepareDescriptorSet (c : DescriptorSetCache) (descriptorSetLayout : Nat)
    (caps : DESCRIPTORSET_CAPS) : DESCRIPTOR_SET × DescriptorSetCache :=
  match assocFind c.entries caps with
  | some d => (d, c)
  | none =>
      let d : DESCRIPTOR_SET := { id := c.nextId, layout := descriptorSetLayout }
      (d, { entries := (caps, d) :: c.entries, nextId := c.nextId + 1 })

/-! ## Part C: the generated fragment program.

Shader float values are embedded as rationals, shader int values as `Int`,
shader uint values as `Nat`.  The helpers declared in
GSH_VulkanMemoryUtils.h (CMemoryUtils: GetPixelAddress per storage format and
the Memory_Read/Write family) and the packed-format conversions
(PSM32ToVec4 and friends) live outside this module; they are abstracted as
the fields of `MemoryUtilsExt` and only their call pattern is fixed here.
The emulated-memory storage buffer, the CLUT image and the three bound
swizzle-table images are the fields of `FragEnv`. -/

structure Vec4 where
  x : ℚ
  y : ℚ
  z : ℚ
  w : ℚ
deriving DecidableEq

structure Vec3 where
  x : ℚ
  y : ℚ
  z : ℚ
deriving DecidableEq

/-- GLSL float-to-int conversion: truncation toward zero. -/
def truncQ (q : ℚ) : Int := if 0 ≤ q then ⌊q⌋ else -⌊-q⌋

/-- GLSL float-to-uint conversion as used on nonnegative shader values. -/
def toUintQ (q : ℚ) : Nat := (truncQ q).toNat

/-- GLSL clamp. -/
def clampQ (v lo hi : ℚ) : ℚ := min (max v lo) hi

/-- GLSL clamp on a signed integer coordinate. -/
def clampI (v lo hi : Int) : Int := min (max v lo) hi

/-- GLSL mix: linear interpolation between two values. -/
def mixQ (a b t : ℚ) : ℚ := a * (1 - t) + b * t

def clamp4 (v : Vec4) (lo hi : ℚ) : Vec4 :=
  { x := clampQ v.x lo hi, y := clampQ v.y lo hi, z := clampQ v.z lo hi, w := clampQ v.w lo hi }

def DEPTH_MAX : ℚ := 4294967296

/-- Bitwise complement on a 32-bit unsigned word (C++ ~ on uint32). -/
def lnot32 (m : Nat) : Nat := 0xFFFFFFFF ^^^ m

/-- Interpolated fragment-stage inputs: window position, normalized depth,
vertex color and the homogeneous texture coordinate. -/
structure FragInput where
  posX : ℚ
  posY : ℚ
  depth : ℚ
  color : Vec4
  s : ℚ
  t : ℚ
  q : ℚ

/-- Resources bound through the descriptor set: the emulated-memory uint
buffer, the CLUT image and the three swizzle-table images. -/
structure FragEnv where
  memory : Int → Nat
  clut : Int × Int → Nat
  texSwizzle : Int × Int → Nat
  fbSwizzle : Int × Int → Nat
  depthSwizzle : Int × Int → Nat

/-- The CMemoryUtils / GsPixelFormats helpers declared outside this module:
pixel-address computation through a bound swizzle table for each storage
class, emulated-memory reads of each width, the packed-format conversions,
and the (unspecified) initial value of uninitialized shader temporaries. -/
structure MemoryUtilsExt where
  getPixelAddressCT32 : (Int × Int → Nat) → Int → Int → Int × Int → Int
  getPixelAddressCT16 : (Int × Int → Nat) → Int → Int → Int × Int → Int
  getPixelAddressZ32 : (Int × Int → Nat) → Int → Int → Int × Int → Int
  getPixelAddressT8 : (Int × Int → Nat) → Int → Int → Int × Int → Int
  getPixelAddressT4 : (Int × Int → Nat) → Int → Int → Int × Int → Int
  memRead32 : (Int → Nat) → Int → Nat
  memRead24 : (Int → Nat) → Int → Nat
  memRead16 : (Int → Nat) → Int → Nat
  memRead8 : (Int → Nat) → Int → Nat
  memRead4 : (Int → Nat) → Int → Nat
  psm32ToVec4 : Nat → Vec4
  psm16ToVec4 : Nat → Vec4
  vec4ToPSM32 : Vec4 → Nat
  vec4ToPSM16 : Vec4 → Nat
  uninitUint : Nat
  uninitVec4 : Vec4

/-- CGsPixelFormats::IsPsmIDTEX: indexed texture formats. -/
def isPsmIDTEX : TexFormat → Bool
| .PSMT8 | .PSMT4 | .PSMT8H | .PSMT4HL | .PSMT4HH => true
| _ => false

/-- CGsPixelFormats::IsPsmIDTEX8: indexed texture formats with 8-bit
indices. -/
def isPsmIDTEX8 : TexFormat → Bool
| .PSMT8 | .PSMT8H => true
| _ => false

/-- GetDepth (lines 645-660): destination depth read selected by the
depthbuffer format. -/
def getDepth (ext : MemoryUtilsExt) (env : FragEnv) (depthFormat : DepthFormat)
    (depthAddress : Int) : Nat :=
  match depthFormat with
  | .PSMZ32 => ext.memRead32 env.memory depthAddress
  | .PSMZ24 => ext.memRead24 env.memory depthAddress
  | .PSMZ16 | .PSMZ16S => ext.memRead16 env.memory depthAddress

/-- ClampTexCoord (lines 662-681): the per-axis texel-coordinate clamp. -/
def clampTexCoord (clampMode : ClampMode) (texCoord texSize clampMin clampMax : Int) : Int :=
  match clampMode with
  | .REPEAT => Int.land texCoord (texSize - 1)
  | .CLAMP => clampI texCoord 0 (texSize - 1)
  | .REGION_CLAMP => clampI texCoord clampMin clampMax
  | .REGION_REPEAT => Int.lor (Int.land texCoord clampMin) clampMax

/-- GetClutColor (lines 683-718): CLUT resolution of an indexed texel.  The
index is the texel value for 8-bit indices and the texel value offset by the
CSA selector for 4-bit indices; two adjacent CLUT halves compose the 32-bit
entry.  (In the source the clut-format switch has only the PSMCT32/PSMCT24
arm; the unreachable default falls through to it.) -/
def getClutColor (ext : MemoryUtilsExt) (env : FragEnv) (textureFormat : TexFormat)
    (texPixel : Nat) (texCsa : Int) : Vec4 :=
  let clutIndex : Int :=
    if isPsmIDTEX8 textureFormat then (texPixel : Int) else (texPixel : Int) + texCsa
  let clutPixelLo := env.clut (clutIndex, 0)
  let clutPixelHi := env.clut (clutIndex + 0x100, 0)
  let clutPixel := clutPixelLo ||| (clutPixelHi <<< 16)
  ext.psm32ToVec4 clutPixel

/-- GetTextureColor (lines 720-790): texel fetch for each supported texture
format: address through the format's storage-class swizzle table, read at the
format's width, then direct conversion or CLUT resolution.  (PSMCT16 is not
listed in the source switch; its unreachable default falls through to the
PSMCT32 arm.) -/
def getTextureColor (ext : MemoryUtilsExt) (env : FragEnv) (textureFormat : TexFormat)
    (texelPos : Int × Int) (texBufAddress texBufWidth : Int) (texCsa : Int) : Vec4 :=
  match textureFormat with
  | .PSMCT32 | .PSMCT16 =>
      let texAddress := ext.getPixelAddressCT32 env.texSwizzle texBufAddress texBufWidth texelPos
      ext.psm32ToVec4 (ext.memRead32 env.memory texAddress)
  | .PSMCT24 =>
      let texAddress := ext.getPixelAddressCT32 env.texSwizzle texBufAddress texBufWidth texelPos
      ext.psm32ToVec4 (ext.memRead24 env.memory texAddress)
  | .PSMCT16S =>
      let texAddress := ext.getPixelAddressCT16 env.texSwizzle texBufAddress texBufWidth texelPos
      ext.psm16ToVec4 (ext.memRead16 env.memory texAddress)
  | .PSMT8 =>
      let texAddress := ext.getPixelAddressT8 env.texSwizzle texBufAddress texBufWidth texelPos
      getClutColor ext env textureFormat (ext.memRead8 env.memory texAddress) texCsa
  | .PSMT4 =>
      let texAddress := ext.getPixelAddressT4 env.texSwizzle texBufAddress texBufWidth texelPos
      getClutColor ext env textureFormat (ext.memRead4 env.memory texAddress) texCsa
  | .PSMT8H =>
      let texAddress := ext.getPixelAddressCT32 env.texSwizzle texBufAddress texBufWidth texelPos
      getClutColor ext env textureFormat (ext.memRead8 env.memory (texAddress + 3)) texCsa
  | .PSMT4HL =>
      let texAddress := ext.getPixelAddressCT32 env.texSwizzle texBufAddress texBufWidth texelPos
      let texNibAddress := (texAddress + 3) * 2
      getClutColor ext env textureFormat (ext.memRead4 env.memory texNibAddress) texCsa
  | .PSMT4HH =>
      let texAddress := ext.getPixelAddressCT32 env.texSwizzle texBufAddress texBufWidth texelPos
      let texNibAddress := Int.lor ((texAddress + 3) * 2) 1
      getClutColor ext env textureFormat (ext.memRead4 env.memory texNibAddress) texCsa

/-- ExpandAlpha (lines 792-832): for formats whose native alpha is one bit,
interpolate between the configured constants with the native bit as factor;
optionally zero the alpha when the channel sum is exactly zero. -/
def expandAlpha (textureFormat : TexFormat) (clutFormat : ClutFormat)
    (texBlackIsTransparent : Bool) (textureColor : Vec4) (textureA0 textureA1 : ℚ) : Vec4 :=
  let requiresExpansion :=
    if isPsmIDTEX textureFormat then
      decide (clutFormat = .PSMCT16) || decide (clutFormat = .PSMCT16S)
    else
      decide (textureFormat = .PSMCT24) || decide (textureFormat = .PSMCT16) ||
      decide (textureFormat = .PSMCT16S)
  if !requiresExpansion then textureColor
  else
    let alpha := mixQ textureA0 textureA1 textureColor.w
    let tc : Vec4 := { x := textureColor.x, y := textureColor.y, z := textureColor.z, w := alpha }
    if texBlackIsTransparent then
      let colorSum := tc.x + tc.y + tc.z
      if colorSum = 0 then { x := tc.x, y := tc.y, z := tc.z, w := 0 } else tc
    else tc

/-- The texture combine function (lines 1000-1028).  (The unreachable
HIGHLIGHT arm of the source switch asserts and leaves the color
unchanged.) -/
def textureCombine (textureFunction : TexFunction) (textureHasAlpha : Bool)
    (textureColor inputColor : Vec4) : Vec4 :=
  match textureFunction with
  | .MODULATE =>
      let t1 : Vec4 :=
        { x := textureColor.x * inputColor.x * 2, y := textureColor.y * inputColor.y * 2
          z := textureColor.z * inputColor.z * 2, w := textureColor.w * inputColor.w * 2 }
      let t2 := clamp4 t1 0 1
      if textureHasAlpha then t2 else { x := t2.x, y := t2.y, z := t2.z, w := inputColor.w }
  | .DECAL => textureColor
  | .HIGHLIGHT2 =>
      let t1 : Vec4 :=
        { x := textureColor.x * inputColor.x * 2 + inputColor.w
          y := textureColor.y * inputColor.y * 2 + inputColor.w
          z := textureColor.z * inputColor.z * 2 + inputColor.w
          w := textureColor.w * inputColor.w * 2 + inputColor.w }
      let t2 := clamp4 t1 0 1
      if textureHasAlpha then t2 else { x := t2.x, y := t2.y, z := t2.z, w := inputColor.w }
  | .HIGHLIGHT => textureColor

/-- The texture stage of the fragment program (lines 980-1033): perspective
division, per-axis clamp, texel fetch, optional alpha expansion and the
combine function; without a texture the interpolated vertex color passes
through. -/
def textureStage (ext : MemoryUtilsExt) (env : FragEnv) (caps : PIPELINE_CAPS)
    (pc : DRAW_PIPELINE_PUSHCONSTANTS) (inp : FragInput) : Vec4 :=
  if caps.hasTexture then
    let texSizeX : Int := (pc.texWidth : Int)
    let texSizeY : Int := (pc.texHeight : Int)
    let texelPosX := truncQ (inp.s / inp.q * (pc.texWidth : ℚ))
    let texelPosY := truncQ (inp.t / inp.q * (pc.texHeight : ℚ))
    let clampPosU := clampTexCoord caps.texClampU texelPosX texSizeX
        (pc.clampMinU : Int) (pc.clampMaxU : Int)
    let clampPosV := clampTexCoord caps.texClampV texelPosY texSizeY
        (pc.clampMinV : Int) (pc.clampMaxV : Int)
    let tc0 := getTextureColor ext env caps.textureFormat (clampPosU, clampPosV)
        (pc.texBufAddr : Int) (pc.texBufWidth : Int) (pc.texCsa : Int)
    let tc1 :=
      if caps.textureHasAlpha then
        expandAlpha caps.textureFormat caps.clutFormat caps.textureBlackIsTransparent tc0
          ((pc.texA0 : ℚ) / 255) ((pc.texA1 : ℚ) / 255)
      else tc0
    textureCombine caps.textureFunction caps.textureHasAlpha tc1 inp.color
  else inp.color

/-- The 8-bit quantization applied to the texture-stage alpha before the
alpha test: ToUint(alpha * 255). -/
def quantizeAlpha (w : ℚ) : Nat := toUintQ (w * 255)

/-- The alpha-test comparison (lines 1040-1053). -/
def alphaTestStage (f : AlphaTestFunc) (alphaUint alphaRef : Nat) : Bool :=
  match f with
  | .ALWAYS => true
  | .EQUAL => decide (alphaUint = alphaRef)
  | .GEQUAL => decide (alphaRef ≤ alphaUint)

/-- The depth-test comparison (lines 1135-1150), on 32-bit unsigned depth
values. -/
def depthTestStage (f : DepthTestFunc) (srcDepth dstDepth : Nat) : Bool :=
  match f with
  | .ALWAYS => true
  | .NEVER => false
  | .GEQUAL => decide (dstDepth ≤ srcDepth)
  | .GREATER => decide (dstDepth < srcDepth)

/-- GetAlphaABD (lines 834-848): the A, B and D blend operands. -/
def getAlphaABD (sel : AlphaABD) (srcColor dstColor : Vec4) : Vec3 :=
  match sel with
  | .CS => { x := srcColor.x, y := srcColor.y, z := srcColor.z }
  | .CD => { x := dstColor.x, y := dstColor.y, z := dstColor.z }
  | .ZERO => { x := 0, y := 0, z := 0 }

/-- GetAlphaC (lines 851-865): the C blend operand. -/
def getAlphaC (sel : AlphaCsel) (srcColor dstColor : Vec4) (alphaFix : ℚ) : Vec3 :=
  match sel with
  | .AS => { x := srcColor.w, y := srcColor.w, z := srcColor.w }
  | .AD => { x := dstColor.w, y := dstColor.w, z := dstColor.w }
  | .FIX => { x := alphaFix, y := alphaFix, z := alphaFix }

/-- The blend stage (lines 1152-1167): with blending enabled, combine the
operands as ((A - B) * C * 2) + D, force the alpha to the texture-stage
alpha and clamp; with blending disabled the texture-stage color passes
through. -/
def blendStage (caps : PIPELINE_CAPS) (textureColor dstColorIn : Vec4) (alphaFix : ℚ) : Vec4 :=
  if caps.hasAlphaBlending then
    let alphaA := getAlphaABD caps.alphaA textureColor dstColorIn
    let alphaB := getAlphaABD caps.alphaB textureColor dstColorIn
    let alphaC := getAlphaC caps.alphaC textureColor dstColorIn alphaFix
    let alphaD := getAlphaABD caps.alphaD textureColor dstColorIn
    let blended : Vec3 :=
      { x := (alphaA.x - alphaB.x) * alphaC.x * 2 + alphaD.x
        y := (alphaA.y - alphaB.y) * alphaC.y * 2 + alphaD.y
        z := (alphaA.z - alphaB.z) * alphaC.z * 2 + alphaD.z }
    let finalColor : Vec4 := { x := blended.x, y := blended.y, z := blended.z, w := textureColor.w }
    clamp4 finalColor 0 1
  else textureColor

/-- A write to the emulated-memory buffer as issued by the fragment program:
the Memory_Write width, the pixel address and the value passed in. -/
structure MemWrite where
  width : Nat
  addr : Int
  value : Nat
deriving DecidableEq

/-- Modelled from the spec: the commit of Memory_Write32/24/16 (CMemoryUtils,
declared outside this module) stores only the low `width` bits of the value —
"format-specific packing: 32-bit direct, 24-bit truncated, 16-bit packed". -/
def committedValue (w : MemWrite) : Nat := w.value % 2 ^ w.width

/-- WriteToFramebuffer (lines 867-895): merge the packed destination color
with the previously read destination pixel under the framebuffer write mask,
then write at the framebuffer format's width. -/
def writeToFramebuffer (ext : MemoryUtilsExt) (framebufferFormat : FbFormat)
    (fbAddress : Int) (fbWriteMask dstPixel : Nat) (dstColor : Vec4) : MemWrite :=
  match framebufferFormat with
  | .PSMCT32 =>
      { width := 32, addr := fbAddress
        value := (ext.vec4ToPSM32 dstColor &&& fbWriteMask) ||| (dstPixel &&& lnot32 fbWriteMask) }
  | .PSMCT24 =>
      { width := 24, addr := fbAddress
        value := (ext.vec4ToPSM32 dstColor &&& fbWriteMask) ||| (dstPixel &&& lnot32 fbWriteMask) }
  | .PSMCT16 | .PSMCT16S =>
      { width := 16, addr := fbAddress
        value := (ext.vec4ToPSM16 dstColor &&& fbWriteMask) ||| (dstPixel &&& lnot32 fbWriteMask) }

/-- WriteToDepthbuffer (lines 897-924): write the source depth truncated to
the depthbuffer format's bit width. -/
def writeToDepthbuffer (depthbufferFormat : DepthFormat) (depthAddress : Int)
    (srcDepth : Nat) : MemWrite :=
  match depthbufferFormat with
  | .PSMZ32 => { width := 32, addr := depthAddress, value := srcDepth }
  | .PSMZ24 => { width := 24, addr := depthAddress, value := srcDepth &&& 0xFFFFFF }
  | .PSMZ16 | .PSMZ16S => { width := 16, addr := depthAddress, value := srcDepth &&& 0xFFFF }

/-- The source depth recovered in the fragment stage:
ToUint(inputDepth * DEPTH_MAX). -/
def fragSrcDepth (inp : FragInput) : Nat := toUintQ (inp.depth * DEPTH_MAX)

/-- The integer window position of the fragment. -/
def fragScreenPos (inp : FragInput) : Int × Int := (truncQ inp.posX, truncQ inp.posY)

/-- Framebuffer destination address (lines 1060-1074): 32-bit storage class
for PSMCT32/24, 16-bit storage class for PSMCT16/16S, through the bound
framebuffer swizzle table. -/
def fbAddressOf (ext : MemoryUtilsExt) (env : FragEnv) (caps : PIPELINE_CAPS)
    (pc : DRAW_PIPELINE_PUSHCONSTANTS) (inp : FragInput) : Int :=
  match caps.framebufferFormat with
  | .PSMCT32 | .PSMCT24 =>
      ext.getPixelAddressCT32 env.fbSwizzle (pc.fbBufAddr : Int) (pc.fbBufWidth : Int)
        (fragScreenPos inp)
  | .PSMCT16 | .PSMCT16S =>
      ext.getPixelAddressCT16 env.fbSwizzle (pc.fbBufAddr : Int) (pc.fbBufWidth : Int)
        (fragScreenPos inp)

/-- Depthbuffer destination address (lines 1076-1091): the PSMZ32 storage
class for 32/24-bit depth, the PSMCT16 storage class for 16-bit depth,
through the bound depthbuffer swizzle table. -/
def depthAddressOf (ext : MemoryUtilsExt) (env : FragEnv) (caps : PIPELINE_CAPS)
    (pc : DRAW_PIPELINE_PUSHCONSTANTS) (inp : FragInput) : Int :=
  match caps.depthbufferFormat with
  | .PSMZ32 | .PSMZ24 =>
      ext.getPixelAddressZ32 env.depthSwizzle (pc.depthBufAddr : Int) (pc.depthBufWidth : Int)
        (fragScreenPos inp)
  | .PSMZ16 | .PSMZ16S =>
      ext.getPixelAddressCT16 env.depthSwizzle (pc.depthBufAddr : Int) (pc.depthBufWidth : Int)
        (fragScreenPos inp)

/-- The destination color is read only when blending or color masking needs
it (line 1099). -/
def needsDstColor (caps : PIPELINE_CAPS) : Bool := caps.hasAlphaBlending || caps.maskColor

/-- The destination depth is read only when the depth test consumes it
(lines 1128-1129). -/
def needsDstDepth (caps : PIPELINE_CAPS) : Bool :=
  decide (caps.depthTestFunction = .GEQUAL) || decide (caps.depthTestFunction = .GREATER)

/-- The conditional destination-pixel read (lines 1099-1126): the raw
destination word and its unpacked color; uninitialized temporaries when the
read is skipped. -/
def fragDstPair (ext : MemoryUtilsExt) (env : FragEnv) (caps : PIPELINE_CAPS)
    (pc : DRAW_PIPELINE_PUSHCONSTANTS) (inp : FragInput) : Nat × Vec4 :=
  if needsDstColor caps then
    match caps.framebufferFormat with
    | .PSMCT32 =>
        let p := ext.memRead32 env.memory (fbAddressOf ext env caps pc inp)
        (p, ext.psm32ToVec4 p)
    | .PSMCT24 =>
        let p := ext.memRead24 env.memory (fbAddressOf ext env caps pc inp)
        (p, ext.psm32ToVec4 p)
    | .PSMCT16 | .PSMCT16S =>
        let p := ext.memRead16 env.memory (fbAddressOf ext env caps pc inp)
        (p, ext.psm16ToVec4 p)
  else (ext.uninitUint, ext.uninitVec4)

/-- The conditional destination-depth read (lines 1128-1133). -/
def fragDstDepth (ext : MemoryUtilsExt) (env : FragEnv) (caps : PIPELINE_CAPS)
    (pc : DRAW_PIPELINE_PUSHCONSTANTS) (inp : FragInput) : Nat :=
  if needsDstDepth caps then
    getDepth ext env caps.depthbufferFormat (depthAddressOf ext env caps pc inp)
  else ext.uninitUint

/-- The depth-test result of the fragment. -/
def fragDepthTest (ext : MemoryUtilsExt) (env : FragEnv) (caps : PIPELINE_CAPS)
    (pc : DRAW_PIPELINE_PUSHCONSTANTS) (inp : FragInput) : Bool :=
  depthTestStage caps.depthTestFunction (fragSrcDepth inp) (fragDstDepth ext env caps pc inp)

/-- The destination color after the blend stage. -/
def fragDstColor (ext : MemoryUtilsExt) (env : FragEnv) (caps : PIPELINE_CAPS)
    (pc : DRAW_PIPELINE_PUSHCONSTANTS) (inp : FragInput) : Vec4 :=
  blendStage caps (textureStage ext env caps pc inp) (fragDstPair ext env caps pc inp).2
    ((pc.alphaFix : ℚ) / 255)

/-- The observable result of one fragment invocation: the emulated-memory
writes it issues and its color-attachment output. -/
structure FragOut where
  writes : List MemWrite
  outputColor : Vec4
deriving DecidableEq

/-- CDraw::CreateFragmentShader (lines 926-1191), as the value semantics of
the program it generates for descriptor `caps`: texture stage, alpha test
(computed, never consumed), destination addressing, the interlocked
read-modify-write with depth test and blend, the depth-guarded conditional
commit, and the output-color write. -/
def fragmentShader (ext : MemoryUtilsExt) (env : FragEnv) (caps : PIPELINE_CAPS)
    (pc : DRAW_PIPELINE_PUSHCONSTANTS) (inp : FragInput) : FragOut :=
  let srcDepth := fragSrcDepth inp
  let textureColor := textureStage ext env caps pc inp
  let alphaUint := quantizeAlpha textureColor.w
  let _alphaTestResult := alphaTestStage caps.alphaTestFunction alphaUint pc.alphaRef
  let dstPair := fragDstPair ext env caps pc inp
  let depthTestResult := fragDepthTest ext env caps pc inp
  let dstColor := blendStage caps textureColor dstPair.2 ((pc.alphaFix : ℚ) / 255)
  let writes :=
    if depthTestResult then
      writeToFramebuffer ext caps.framebufferFormat (fbAddressOf ext env caps pc inp)
          pc.fbWriteMask dstPair.1 dstColor ::
        (if caps.writeDepth then
          [writeToDepthbuffer caps.depthbufferFormat (depthAddressOf ext env caps pc inp) srcDepth]
        else [])
    else []
  { writes := writes, outputColor := dstColor }

/-- The alpha-test result computed by the generated fragment program
(lines 1038-1053): the texture-stage alpha quantized to 8 bits compared with
the reference push constant.  (The program stores it in a temporary and
never consumes it afterwards.) -/
def fragAlphaTest (ext : MemoryUtilsExt) (env : FragEnv) (caps : PIPELINE_CAPS)
    (pc : DRAW_PIPELINE_PUSHCONSTANTS) (inp : FragInput) : Bool :=
  alphaTestStage caps.alphaTestFunction (quantizeAlpha (textureStage ext env caps pc inp).w)
    pc.alphaRef

/-- The storage bit width of each framebuffer format. -/
def fbFormatBits : FbFormat → Nat
| .PSMCT32 => 32
| .PSMCT24 => 24
| .PSMCT16 | .PSMCT16S => 16

/-- The storage bit width of each depthbuffer format. -/
def depthFormatBits : DepthFormat → Nat
| .PSMZ32 => 32
| .PSMZ24 => 24
| .PSMZ16 | .PSMZ16S => 16

/-- A trivial concrete instantiation of the abstract memory-utility
interface, used by the concrete checks. -/
def extZero : MemoryUtilsExt :=
  { getPixelAddressCT32 := fun _ _ _ _ => 0
    getPixelAddressCT16 := fun _ _ _ _ => 0
    getPixelAddressZ32 := fun _ _ _ _ => 0
    getPixelAddressT8 := fun _ _ _ _ => 0
    getPixelAddressT4 := fun _ _ _ _ => 0
    memRead32 := fun _ _ => 0
    memRead24 := fun _ _ => 0
    memRead16 := fun _ _ => 0
    memRead8 := fun _ _ => 0
    memRead4 := fun _ _ => 0
    psm32ToVec4 := fun _ => { x := 0, y := 0, z := 0, w := 0 }
    psm16ToVec4 := fun _ => { x := 0, y := 0, z := 0, w := 0 }
    vec4ToPSM32 := fun _ => 0
    vec4ToPSM16 := fun _ => 0
    uninitUint := 0
    uninitVec4 := { x := 0, y := 0, z := 0, w := 0 } }

/-- A trivial concrete resource environment, used by the concrete checks. -/
def envZero : FragEnv :=
  { memory := fun _ => 0
    clut := fun _ => 0
    texSwizzle := fun _ => 0
    fbSwizzle := fun _ => 0
    depthSwizzle := fun _ => 0 }

/-- A concrete fragment input with source color (1, 0, 0, 1). -/
def inpZero : FragInput :=
  { posX := 0, posY := 0, depth := 0, color := { x := 1, y := 0, z := 0, w := 1 }
    s := 0, t := 0, q := 1 }

/-- The blend scenario source color (1, 0, 0, 1). -/
def vSrcScn : Vec4 := { x := 1, y := 0, z := 0, w := 1 }

/-- The blend scenario destination color (0, 1, 0, 1). -/
def vDstScn : Vec4 := { x := 0, y := 1, z := 0, w := 1 }

/-- The blend scenario descriptor: blending enabled with A = source,
B = destination, C = fixed, D = zero. -/
def capsBlendScn : PIPELINE_CAPS :=
  { caps0 with hasAlphaBlending := true, alphaA := .CS, alphaB := .CD,
               alphaC := .FIX, alphaD := .ZERO }

/-! ## Part D: emission order of the generated fragment program.

`fragmentOps` lists, in emission order, the operation categories
CreateFragmentShader writes into the program for a given descriptor; the
invocation-interlock claim is about where the destination accesses of the
emulated-memory buffer sit relative to the
BeginInvocationInterlock/EndInvocationInterlock markers. -/

inductive ShaderOp
| texSample
| alphaTest
| addrCompute
| beginInterlock
| dstColorRead
| dstDepthRead
| depthTest
| blendOp
| beginIf
| fbWrite
| depthWrite
| endIf
| endInterlock
| outputWrite
deriving DecidableEq

/-- Destination accesses of the emulated-memory buffer: the conditional
destination-color and destination-depth reads and the framebuffer and
depthbuffer writes. -/
def ShaderOp.isDstAccess : ShaderOp → Bool
| .dstColorRead | .dstDepthRead | .fbWrite | .depthWrite => true
| _ => false

/-- Operations emitted before the interlocked region: the texture stage
(conditional), the alpha test and the destination-address computation. -/
def fragPreOps (caps : PIPELINE_CAPS) : List ShaderOp :=
  (if caps.hasTexture then [ShaderOp.texSample] else []) ++
  [ShaderOp.alphaTest, ShaderOp.addrCompute]

/-- Operations emitted inside the interlocked region, in source order
(lines 1093-1182): conditional destination reads, depth test, blend, and the
depth-guarded conditional commit. -/
def fragCriticalOps (caps : PIPELINE_CAPS) : List ShaderOp :=
  (if needsDstColor caps then [ShaderOp.dstColorRead] else []) ++
  (if needsDstDepth caps then [ShaderOp.dstDepthRead] else []) ++
  [ShaderOp.depthTest, ShaderOp.blendOp, ShaderOp.beginIf, ShaderOp.fbWrite] ++
  (if caps.writeDepth then [ShaderOp.depthWrite] else []) ++
  [ShaderOp.endIf]

/-- Operations emitted after the interlocked region: the output-color
assignment. -/
def fragPostOps : List ShaderOp := [ShaderOp.outputWrite]

/-- The full emission order of CreateFragmentShader for descriptor `caps`. -/
def fragmentOps (caps : PIPELINE_CAPS) : List ShaderOp :=
  fragPreOps caps ++ [ShaderOp.beginInterlock] ++ fragCriticalOps caps ++
  [ShaderOp.endInterlock] ++ fragPostOps

/-- The batch invariant maintained by triangle-list callers: the cursors are
ordered and the open batch length is a multiple of three. -/
def batchInv (s : DrawState) : Prop :=
  s.passVertexStart ≤ s.passVertexEnd ∧ (s.passVertexEnd - s.passVertexStart) % 3 = 0

/-- An event appends only whole triangles: every AddVertices run length is a
multiple of three. -/
def evAddsMul3 : Ev → Bool
| .add n => decide (n % 3 = 0)
| _ => true

/-! ## Helper lemmas -/

theorem countFlushCalls_append (a b : List Act) :
    countFlushCalls (a ++ b) = countFlushCalls a + countFlushCalls b := by
  simp [countFlushCalls, List.countP_append]

theorem countFlushCalls_flushVertices (s : DrawState) :
    countFlushCalls (flushVertices s).2 = 0 := by
  unfold flushVertices
  split
  · rfl
  · split <;> simp [countFlushCalls, List.countP, List.countP.go, Act.isFlushCall]

theorem draw_mem_flushVertices (s : DrawState) (r : DRAW_REC)
    (h : Act.draw r ∈ (flushVertices s).2) : r = drawRecOf s := by
  unfold flushVertices at h
  split at h
  · simp at h
  · split at h <;> simp_all

theorem countFrameSubmits_append (a b : List Act) :
    countFrameSubmits (a ++ b) = countFrameSubmits a + countFrameSubmits b := by
  simp [countFrameSubmits, List.countP_append]

theorem countFrameSubmits_flushVertices (s : DrawState) :
    countFrameSubmits (flushVertices s).2 = 0 := by
  unfold flushVertices
  split
  · rfl
  · split <;> simp [countFrameSubmits, List.countP, List.countP.go, Act.isFrameSubmit]

theorem countCapacityFails_flushVertices (s : DrawState) :
    countCapacityFails (flushVertices s).2 = 0 := by
  unfold flushVertices
  split
  · rfl
  · split <;> simp [countCapacityFails, List.countP, List.countP.go, Act.isCapacityFail]

theorem countFlushCalls_stepSetter (s : DrawState) (e : Setter) :
    countFlushCalls (stepSetter s e).2 = if setterChanged s e then 1 else 0 := by
  unfold stepSetter
  by_cases h : setterChanged s e
  · simp only [h, if_true]
    show countFlushCalls (Act.flushCall :: (flushVertices s).2) = 1
    unfold countFlushCalls
    rw [List.countP_cons]
    have h0 := countFlushCalls_flushVertices s
    unfold countFlushCalls at h0
    rw [h0]
    rfl
  · simp [h, countFlushCalls]

/-! ## Claim theorems -/

/-- Claim C1: every state setter is a no-op (no state change, no flush) when
the incoming value equals the committed value; when it differs, the pending
batch is flushed under the old state before the new value is committed; any
draw a setter issues carries the pre-call state snapshot; over any sequence
of setter calls the number of FlushVertices invocations equals the number of
actual changes; and in the framebuffer scenario, setting address 100 twice
from a state already at 100 produces zero flushes, while setting 200
produces exactly one flush whose draw is under the old address 100 before
200 takes effect. -/
theorem c1_setter_flush_per_change :
    (∀ s e, setterChanged s e = false → stepSetter s e = (s, [])) ∧
    (∀ s e, setterChanged s e = true →
      stepSetter s e =
        (setterCommit (flushVertices s).1 e, Act.flushCall :: (flushVertices s).2)) ∧
    (∀ s e r, Act.draw r ∈ (stepSetter s e).2 → r = drawRecOf s) ∧
    (∀ s es, countFlushCalls (runSetters s es).2 = changedCount s es) ∧
    (countFlushCalls (runSetters stateFbA
        [Setter.framebuffer 100 64 7, Setter.framebuffer 100 64 7]).2 = 0) ∧
    ((runSetters stateFbA [Setter.framebuffer 200 64 7]).2 =
        [Act.flushCall, Act.draw (drawRecOf stateFbA)] ∧
      (drawRecOf stateFbA).pushConstants.fbBufAddr = 100 ∧
      (runSetters stateFbA [Setter.framebuffer 200 64 7]).1.pushConstants.fbBufAddr = 200) := by
  refine ⟨?_, ?_, ?_, ?_, ?_, ?_⟩
  · intro s e h
    simp [stepSetter, h]
  · intro s e h
    simp [stepSetter, h]
  · intro s e r h
    unfold stepSetter at h
    split at h
    · simp at h
      exact draw_mem_flushVertices s r h
    · simp at h
  · intro s es
    induction es generalizing s with
    | nil => rfl
    | cons e es ih =>
        show countFlushCalls ((stepSetter s e).2 ++ (runSetters (stepSetter s e).1 es).2) = _
        rw [countFlushCalls_append, ih, countFlushCalls_stepSetter]
        rfl
  · decide
  · refine ⟨by decide, by decide, by decide⟩

theorem countTriangleFails_append (a b : List Act) :
    countTriangleFails (a ++ b) = countTriangleFails a + countTriangleFails b := by
  simp [countTriangleFails, List.countP_append]

theorem countCapacityFails_append (a b : List Act) :
    countCapacityFails (a ++ b) = countCapacityFails a + countCapacityFails b := by
  simp [countCapacityFails, List.countP_append]

theorem countFrameSubmits_frameFlushStep (s : DrawState) :
    countFrameSubmits (frameFlushStep s).2 = 1 := by
  show countFrameSubmits ((Act.flushCall :: (flushVertices s).2) ++ [Act.frameSubmit]) = 1
  rw [countFrameSubmits_append]
  unfold countFrameSubmits
  rw [List.countP_cons]
  have h0 := countFrameSubmits_flushVertices s
  unfold countFrameSubmits at h0
  rw [h0]
  rfl

theorem countCapacityFails_frameFlushStep (s : DrawState) :
    countCapacityFails (frameFlushStep s).2 = 0 := by
  show countCapacityFails ((Act.flushCall :: (flushVertices s).2) ++ [Act.frameSubmit]) = 0
  rw [countCapacityFails_append]
  unfold countCapacityFails
  rw [List.countP_cons]
  have h0 := countCapacityFails_flushVertices s
  unfold countCapacityFails at h0
  rw [h0]
  rfl

theorem flushVertices_good (s : DrawState) (hs : batchInv s) :
    batchInv (flushVertices s).1 ∧ countTriangleFails (flushVertices s).2 = 0 ∧
    ∀ r, Act.draw r ∈ (flushVertices s).2 → r.vertexCount % 3 = 0 ∧ 0 < r.vertexCount := by
  unfold flushVertices
  split
  case isTrue h => exact ⟨hs, rfl, by simp⟩
  case isFalse h =>
    rw [if_pos hs.2]
    refine ⟨⟨Nat.le_refl _, by simp⟩, rfl, ?_⟩
    intro r hr
    simp at hr
    subst hr
    exact ⟨hs.2, Nat.pos_of_ne_zero h⟩

theorem setterCommit_cursors (s : DrawState) (e : Setter) :
    (setterCommit s e).passVertexStart = s.passVertexStart ∧
    (setterCommit s e).passVertexEnd = s.passVertexEnd := by
  cases e <;> exact ⟨rfl, rfl⟩

theorem batchInv_setterCommit (s : DrawState) (e : Setter) (h : batchInv s) :
    batchInv (setterCommit s e) := by
  have hc := setterCommit_cursors s e
  unfold batchInv at h ⊢
  rw [hc.1, hc.2]
  exact h

theorem frameFlushStep_good (s : DrawState) (hs : batchInv s) :
    batchInv (frameFlushStep s).1 ∧ countTriangleFails (frameFlushStep s).2 = 0 ∧
    ∀ r, Act.draw r ∈ (frameFlushStep s).2 → r.vertexCount % 3 = 0 ∧ 0 < r.vertexCount := by
  obtain ⟨_, h2, h3⟩ := flushVertices_good s hs
  refine ⟨⟨Nat.le_refl 0, rfl⟩, ?_, ?_⟩
  · show countTriangleFails ((Act.flushCall :: (flushVertices s).2) ++ [Act.frameSubmit]) = 0
    rw [countTriangleFails_append]
    unfold countTriangleFails
    rw [List.countP_cons]
    unfold countTriangleFails at h2
    rw [h2]
    rfl
  · intro r hr
    show r.vertexCount % 3 = 0 ∧ 0 < r.vertexCount
    have hr2 : Act.draw r ∈ (Act.flushCall :: (flushVertices s).2) ++ [Act.frameSubmit] := hr
    simp at hr2
    exact h3 r hr2

theorem countTriangleFails_flushCall_cons (l : List Act) :
    countTriangleFails (Act.flushCall :: l) = countTriangleFails l := by
  unfold countTriangleFails
  rw [List.countP_cons]
  rfl

theorem stepEv_good (s : DrawState) (e : Ev) (hs : batchInv s) (he : evAddsMul3 e = true) :
    batchInv (stepEv s e).1 ∧ countTriangleFails (stepEv s e).2 = 0 ∧
    ∀ r, Act.draw r ∈ (stepEv s e).2 → r.vertexCount % 3 = 0 ∧ 0 < r.vertexCount := by
  cases e with
  | set e =>
      simp only [stepEv]
      unfold stepSetter
      by_cases h : setterChanged s e
      · simp only [h, if_true]
        obtain ⟨h1, h2, h3⟩ := flushVertices_good s hs
        refine ⟨batchInv_setterCommit _ _ h1, ?_, ?_⟩
        · show countTriangleFails (Act.flushCall :: (flushVertices s).2) = 0
          rw [countTriangleFails_flushCall_cons, h2]
        · intro r hr
          have hr2 : Act.draw r ∈ Act.flushCall :: (flushVertices s).2 := hr
          simp at hr2
          exact h3 r hr2
      · simp only [h, if_false]
        exact ⟨hs, rfl, by simp⟩
  | add n =>
      have hn : n % 3 = 0 := by simpa [evAddsMul3] using he
      simp only [stepEv]
      unfold addVerticesStep
      by_cases hov : s.passVertexEnd + n > MAX_VERTEX_COUNT
      · rw [if_pos hov]
        obtain ⟨h1, h2, h3⟩ := frameFlushStep_good s hs
        refine ⟨⟨?_, ?_⟩, ?_, ?_⟩
        · show (0 : Nat) ≤ 0 + n
          omega
        · show ((0 : Nat) + n - 0) % 3 = 0
          omega
        · show countTriangleFails ((frameFlushStep s).2 ++
            (if (frameFlushStep s).1.passVertexEnd + n > MAX_VERTEX_COUNT then
              [Act.assertCapacityFail] else [])) = 0
          rw [countTriangleFails_append, h2]
          split <;> rfl
        · intro r hr
          have hr2 : Act.draw r ∈ (frameFlushStep s).2 ++
              (if (frameFlushStep s).1.passVertexEnd + n > MAX_VERTEX_COUNT then
                [Act.assertCapacityFail] else []) := hr
          rw [List.mem_append] at hr2
          rcases hr2 with hr2 | hr2
          · exact h3 r hr2
          · split at hr2 <;> simp at hr2
      · rw [if_neg hov]
        refine ⟨⟨Nat.le_trans hs.1 (Nat.le_add_right _ _), ?_⟩, rfl, by simp⟩
        have g1 := hs.1
        have g2 := hs.2
        show (s.passVertexEnd + n - s.passVertexStart) % 3 = 0
        omega
  | flush =>
      simp only [stepEv]
      obtain ⟨h1, h2, h3⟩ := flushVertices_good s hs
      refine ⟨h1, ?_, ?_⟩
      · rw [countTriangleFails_flushCall_cons, h2]
      · intro r hr
        have hr2 : Act.draw r ∈ Act.flushCall :: (flushVertices s).2 := hr
        simp at hr2
        exact h3 r hr2
  | frameFlush => exact frameFlushStep_good s hs

theorem runEvs_good (s : DrawState) (es : List Ev) (hs : batchInv s)
    (hall : es.all evAddsMul3 = true) :
    batchInv (runEvs s es).1 ∧ countTriangleFails (runEvs s es).2 = 0 ∧
    ∀ r, Act.draw r ∈ (runEvs s es).2 → r.vertexCount % 3 = 0 ∧ 0 < r.vertexCount := by
  induction es generalizing s with
  | nil => exact ⟨hs, rfl, by simp [runEvs]⟩
  | cons e es ih =>
      rw [List.all_cons, Bool.and_eq_true] at hall
      obtain ⟨g1, g2, g3⟩ := stepEv_good s e hs hall.1
      obtain ⟨k1, k2, k3⟩ := ih (stepEv s e).1 g1 hall.2
      refine ⟨k1, ?_, ?_⟩
      · show countTriangleFails ((stepEv s e).2 ++ (runEvs (stepEv s e).1 es).2) = 0
        rw [countTriangleFails_append, g2, k2]
      · intro r hr
        have hr2 : Act.draw r ∈ (stepEv s e).2 ++ (runEvs (stepEv s e).1 es).2 := hr
        rw [List.mem_append] at hr2
        rcases hr2 with hr2 | hr2
        · exact g3 r hr2
        · exact k3 r hr2

/-- Claim C1 witness: instantiating the hypothesis-bearing parts at concrete
inputs. -/
theorem c1_setter_flush_per_change_check :
    (setterChanged stateFbA (Setter.framebuffer 100 64 7) = false ∧
      stepSetter stateFbA (Setter.framebuffer 100 64 7) = (stateFbA, [])) ∧
    (setterChanged stateFbA (Setter.framebuffer 200 64 7) = true ∧
      stepSetter stateFbA (Setter.framebuffer 200 64 7) =
        (setterCommit (flushVertices stateFbA).1 (Setter.framebuffer 200 64 7),
          Act.flushCall :: (flushVertices stateFbA).2)) :=
  ⟨⟨by decide, c1_setter_flush_per_change.1 stateFbA (Setter.framebuffer 100 64 7) (by decide)⟩,
   ⟨by decide, c1_setter_flush_per_change.2.1 stateFbA (Setter.framebuffer 200 64 7) (by decide)⟩⟩

/-- Claim C7: AddVertices appends in place when the run fits; when appending
would exceed MAX_VERTEX_COUNT, exactly one out-of-band frame submission is
forced before the append, and — the post-submission hook having reset both
cursors to zero — the capacity assertion cannot fire provided the single run
itself fits; appending MAX_VERTEX_COUNT + 1 vertices across two AddVertices
calls forces exactly one such submission, between the two calls. -/
theorem c7_capacity_bound :
    (∀ s n, s.passVertexEnd + n ≤ MAX_VERTEX_COUNT →
      addVerticesStep s n = (( { s with passVertexEnd := s.passVertexEnd + n } : DrawState), [])) ∧
    (∀ s n, s.passVertexEnd + n > MAX_VERTEX_COUNT → n ≤ MAX_VERTEX_COUNT →
      countFrameSubmits (addVerticesStep s n).2 = 1 ∧
      countCapacityFails (addVerticesStep s n).2 = 0 ∧
      (addVerticesStep s n).1.passVertexStart = 0 ∧
      (addVerticesStep s n).1.passVertexEnd = n) ∧
    (countFrameSubmits (stepEv initState (Ev.add MAX_VERTEX_COUNT)).2 = 0 ∧
      countFrameSubmits (runEvs initState [Ev.add MAX_VERTEX_COUNT, Ev.add 1]).2 = 1) := by
  refine ⟨?_, ?_, by decide, by decide⟩
  · intro s n h
    unfold addVerticesStep
    rw [if_neg (by omega)]
  · intro s n h1 h2
    unfold addVerticesStep
    rw [if_pos h1]
    have hz : (frameFlushStep s).1.passVertexEnd = 0 := rfl
    have hfit : ¬((frameFlushStep s).1.passVertexEnd + n > MAX_VERTEX_COUNT) := by
      rw [hz]
      omega
    rw [if_neg hfit]
    refine ⟨?_, ?_, rfl, ?_⟩
    · show countFrameSubmits ((frameFlushStep s).2 ++ []) = 1
      rw [countFrameSubmits_append, countFrameSubmits_frameFlushStep]
      rfl
    · show countCapacityFails ((frameFlushStep s).2 ++ []) = 0
      rw [countCapacityFails_append, countCapacityFails_frameFlushStep]
      rfl
    · show (0 : Nat) + n = n
      omega

/-- Claim C7 witness: a concrete overflowing append with a fitting run. -/
theorem c7_capacity_bound_check :
    ((runEvs initState [Ev.add MAX_VERTEX_COUNT]).1.passVertexEnd + 1 > MAX_VERTEX_COUNT ∧
      (1 : Nat) ≤ MAX_VERTEX_COUNT) ∧
    countFrameSubmits
      (addVerticesStep (runEvs initState [Ev.add MAX_VERTEX_COUNT]).1 1).2 = 1 :=
  ⟨⟨by decide, by decide⟩,
    (c7_capacity_bound.2.1 (runEvs initState [Ev.add MAX_VERTEX_COUNT]).1 1
      (by decide) (by decide)).1⟩

/-- Claim C8 counterexample: the multiple-of-three assertion CAN fire for a
reachable sequence of AddVertices and flush triggers — appending a single
vertex and flushing reaches the draw path with vertex count 1. -/
theorem c8_counterexample_single_vertex :
    countTriangleFails (runEvs initState [Ev.add 1, Ev.flush]).2 = 1 := by decide

/-- Claim C8 (amended): FlushVertices returns without side effects when the
open batch is empty; and provided every AddVertices run length is a multiple
of three, over any event sequence from the initial state the
multiple-of-three assertion never fires and every batch actually drawn has a
vertex count that is a strict positive multiple of three. -/
theorem c8_flush_triangle_multiple :
    (∀ s, s.passVertexEnd = s.passVertexStart → flushVertices s = (s, [])) ∧
    (∀ es, es.all evAddsMul3 = true →
      countTriangleFails (runEvs initState es).2 = 0 ∧
      ∀ r, Act.draw r ∈ (runEvs initState es).2 →
        r.vertexCount % 3 = 0 ∧ 0 < r.vertexCount) := by
  constructor
  · intro s h
    unfold flushVertices
    rw [if_pos (by omega)]
  · intro es hall
    have h0 : batchInv initState := ⟨Nat.le_refl 0, rfl⟩
    obtain ⟨_, h2, h3⟩ := runEvs_good initState es h0 hall
    exact ⟨h2, h3⟩

/-- Claim C8 witness: the amended statement instantiated on an empty-batch
state and on a concrete two-triangle sequence. -/
theorem c8_flush_triangle_multiple_check :
    (initState.passVertexEnd = initState.passVertexStart ∧
      flushVertices initState = (initState, [])) ∧
    ([Ev.add 6, Ev.flush].all evAddsMul3 = true ∧
      countTriangleFails (runEvs initState [Ev.add 6, Ev.flush]).2 = 0) :=
  ⟨⟨rfl, c8_flush_triangle_multiple.1 initState rfl⟩,
    ⟨by decide, (c8_flush_triangle_multiple.2 [Ev.add 6, Ev.flush] (by decide)).1⟩⟩

theorem getOrCreatePipeline_hit (c : PipelineCache) (caps : PIPELINE_CAPS) (p : PIPELINE)
    (h : tryGetPipeline c caps = some p) : getOrCreatePipeline c caps = (p, c) := by
  unfold getOrCreatePipeline
  rw [h]

theorem getOrCreatePipeline_mem (c : PipelineCache) (caps : PIPELINE_CAPS) :
    tryGetPipeline (getOrCreatePipeline c caps).2 caps = some (getOrCreatePipeline c caps).1 := by
  unfold getOrCreatePipeline
  cases h : tryGetPipeline c caps with
  | some p => exact h
  | none => simp [tryGetPipeline, assocFind]

theorem tryGetPipeline_mono (c : PipelineCache) (caps other : PIPELINE_CAPS) (p : PIPELINE)
    (h : tryGetPipeline c caps = some p) :
    tryGetPipeline (getOrCreatePipeline c other).2 caps = some p := by
  unfold getOrCreatePipeline
  cases h2 : tryGetPipeline c other with
  | some q => exact h
  | none =>
      show assocFind
        ((other, ({ id := c.nextId, descriptorSetLayout := c.nextId } : PIPELINE)) :: c.entries)
        caps = some p
      unfold tryGetPipeline at h h2
      by_cases he : other = caps
      · rw [he] at h2
        rw [h] at h2
        exact Option.noConfusion h2
      · unfold assocFind
        rw [if_neg he]
        exact h

theorem prepareDescriptorSet_hit (c : DescriptorSetCache) (l : Nat) (k : DESCRIPTORSET_CAPS)
    (d : DESCRIPTOR_SET) (h : assocFind c.entries k = some d) :
    prepareDescriptorSet c l k = (d, c) := by
  unfold prepareDescriptorSet
  rw [h]

theorem prepareDescriptorSet_mem (c : DescriptorSetCache) (l : Nat) (k : DESCRIPTORSET_CAPS) :
    assocFind ((prepareDescriptorSet c l k).2).entries k = some (prepareDescriptorSet c l k).1 := by
  unfold prepareDescriptorSet
  cases h : assocFind c.entries k with
  | some d => exact h
  | none => simp [assocFind]

theorem prepareDescriptorSet_mono (c : DescriptorSetCache) (l : Nat)
    (k other : DESCRIPTORSET_CAPS) (d : DESCRIPTOR_SET) (h : assocFind c.entries k = some d) :
    assocFind ((prepareDescriptorSet c l other).2).entries k = some d := by
  unfold prepareDescriptorSet
  cases h2 : assocFind c.entries other with
  | some q => exact h
  | none =>
      show assocFind
        ((other, ({ id := c.nextId, layout := l } : DESCRIPTOR_SET)) :: c.entries)
        k = some d
      by_cases he : other = k
      · rw [he] at h2
        rw [h] at h2
        exact Option.noConfusion h2
      · unfold assocFind
        rw [if_neg he]
        exact h

/-- Claim C9: both caches are pure functions of their key: looking up or
creating a pipeline twice with bitwise-equal capability descriptors yields
the identical pipeline object (and leaves the cache unchanged on the second
occasion); preparing a descriptor set for equal subset keys — even derived
from different full descriptors and passed different layouts — yields the
identical descriptor-set object; and neither cache ever evicts an entry. -/
theorem c9_cache_purity :
    (∀ c caps,
      (getOrCreatePipeline (getOrCreatePipeline c caps).2 caps).1 =
        (getOrCreatePipeline c caps).1 ∧
      (getOrCreatePipeline (getOrCreatePipeline c caps).2 caps).2 =
        (getOrCreatePipeline c caps).2) ∧
    (∀ c l1 l2 caps1 caps2,
      deriveDescriptorSetCaps caps1 = deriveDescriptorSetCaps caps2 →
      (prepareDescriptorSet (prepareDescriptorSet c l1 (deriveDescriptorSetCaps caps1)).2 l2
          (deriveDescriptorSetCaps caps2)).1 =
        (prepareDescriptorSet c l1 (deriveDescriptorSetCaps caps1)).1 ∧
      (prepareDescriptorSet (prepareDescriptorSet c l1 (deriveDescriptorSetCaps caps1)).2 l2
          (deriveDescriptorSetCaps caps2)).2 =
        (prepareDescriptorSet c l1 (deriveDescriptorSetCaps caps1)).2) ∧
    (∀ c caps other p, tryGetPipeline c caps = some p →
      tryGetPipeline (getOrCreatePipeline c other).2 caps = some p) ∧
    (∀ c l k other d, assocFind c.entries k = some d →
      assocFind ((prepareDescriptorSet c l other).2).entries k = some d) := by
  refine ⟨?_, ?_, tryGetPipeline_mono, fun c l k other d h => prepareDescriptorSet_mono c l k other d h⟩
  · intro c caps
    have h := getOrCreatePipeline_hit (getOrCreatePipeline c caps).2 caps
      (getOrCreatePipeline c caps).1 (getOrCreatePipeline_mem c caps)
    exact ⟨congrArg Prod.fst h, congrArg Prod.snd h⟩
  · intro c l1 l2 caps1 caps2 hk
    rw [← hk]
    have h := prepareDescriptorSet_hit (prepareDescriptorSet c l1 (deriveDescriptorSetCaps caps1)).2
      l2 (deriveDescriptorSetCaps caps1) (prepareDescriptorSet c l1 (deriveDescriptorSetCaps caps1)).1
      (prepareDescriptorSet_mem c l1 (deriveDescriptorSetCaps caps1))
    exact ⟨congrArg Prod.fst h, congrArg Prod.snd h⟩

/-- Claim C9 witness: the eviction-freedom parts instantiated on a concrete
one-entry cache and a different second key. -/
theorem c9_cache_purity_check :
    (tryGetPipeline
        ({ entries := [(caps0, { id := 0, descriptorSetLayout := 0 })], nextId := 1 } :
          PipelineCache) caps0 = some { id := 0, descriptorSetLayout := 0 } ∧
      tryGetPipeline
        (getOrCreatePipeline
          ({ entries := [(caps0, { id := 0, descriptorSetLayout := 0 })], nextId := 1 } :
            PipelineCache) { caps0 with hasTexture := true }).2 caps0 =
        some { id := 0, descriptorSetLayout := 0 }) ∧
    (assocFind
        ({ entries := [(deriveDescriptorSetCaps caps0, { id := 0, layout := 5 })], nextId := 1 } :
          DescriptorSetCache).entries (deriveDescriptorSetCaps caps0) =
        some { id := 0, layout := 5 } ∧
      assocFind
        ((prepareDescriptorSet
          ({ entries := [(deriveDescriptorSetCaps caps0, { id := 0, layout := 5 })], nextId := 1 } :
            DescriptorSetCache) 9
          (deriveDescriptorSetCaps { caps0 with hasTexture := true })).2).entries
        (deriveDescriptorSetCaps caps0) = some { id := 0, layout := 5 }) :=
  ⟨⟨by decide,
    c9_cache_purity.2.2.1 _ caps0 { caps0 with hasTexture := true } _ (by decide)⟩,
   ⟨by decide,
    c9_cache_purity.2.2.2 _ 9 (deriveDescriptorSetCaps caps0)
      (deriveDescriptorSetCaps { caps0 with hasTexture := true }) _ (by decide)⟩⟩

theorem nat_and_two_pow_sub_one (n k : Nat) : n &&& (2 ^ k - 1) = n % 2 ^ k := by
  apply Nat.eq_of_testBit_eq
  intro i
  rw [Nat.testBit_and, Nat.testBit_mod_two_pow, Nat.testBit_two_pow_sub_one]
  rw [Bool.and_comm]

/-- Claim C5: the alpha-test result is computed but never consumed by the
generated fragment program — two fragment invocations that differ only in
the alpha-reference push constant issue identical emulated-memory writes and
produce the identical output color. -/
theorem c5_alpha_ref_noninterference :
    ∀ (ext : MemoryUtilsExt) (env : FragEnv) (caps : PIPELINE_CAPS)
      (pc : DRAW_PIPELINE_PUSHCONSTANTS) (inp : FragInput) (r1 r2 : Nat),
      fragmentShader ext env caps { pc with alphaRef := r1 } inp =
      fragmentShader ext env caps { pc with alphaRef := r2 } inp := by
  intro ext env caps pc inp r1 r2
  rfl

/-- Claim C4: the alpha test compares the texture-stage alpha quantized to 8
bits against the reference with the configured function: always-pass accepts
everything (including quantized alphas 0 and 255), equal accepts exactly the
quantized alpha equal to the reference (only 128 when the reference is 128),
and greater-or-equal accepts exactly the quantized alphas at or above the
reference. -/
theorem c4_alpha_test :
    (∀ ext env caps pc inp, caps.alphaTestFunction = .ALWAYS →
      fragAlphaTest ext env caps pc inp = true) ∧
    (∀ ext env caps pc inp, caps.alphaTestFunction = .EQUAL →
      (fragAlphaTest ext env caps pc inp = true ↔
        quantizeAlpha (textureStage ext env caps pc inp).w = pc.alphaRef)) ∧
    (∀ ext env caps pc inp, caps.alphaTestFunction = .GEQUAL →
      (fragAlphaTest ext env caps pc inp = true ↔
        pc.alphaRef ≤ quantizeAlpha (textureStage ext env caps pc inp).w)) ∧
    (quantizeAlpha 0 = 0 ∧ quantizeAlpha 1 = 255 ∧
      alphaTestStage .ALWAYS 0 128 = true ∧ alphaTestStage .ALWAYS 255 128 = true) ∧
    (∀ a, alphaTestStage .EQUAL a 128 = true ↔ a = 128) ∧
    (∀ a r, alphaTestStage .GEQUAL a r = true ↔ r ≤ a) := by
  refine ⟨?_, ?_, ?_, ⟨?_, ?_, rfl, rfl⟩, ?_, ?_⟩
  · intro ext env caps pc inp h
    unfold fragAlphaTest alphaTestStage
    rw [h]
  · intro ext env caps pc inp h
    unfold fragAlphaTest alphaTestStage
    rw [h]
    simp
  · intro ext env caps pc inp h
    unfold fragAlphaTest alphaTestStage
    rw [h]
    simp
  · norm_num [quantizeAlpha, toUintQ, truncQ]
  · norm_num [quantizeAlpha, toUintQ, truncQ]
    decide
  · intro a
    simp [alphaTestStage]
  · intro a r
    simp [alphaTestStage]

/-- Claim C4 witness: the function-specific parts instantiated at concrete
descriptors and inputs. -/
theorem c4_alpha_test_check :
    (caps0.alphaTestFunction = .ALWAYS ∧
      fragAlphaTest extZero envZero caps0 pushConstants0 inpZero = true) ∧
    (({ caps0 with alphaTestFunction := .EQUAL } : PIPELINE_CAPS).alphaTestFunction = .EQUAL ∧
      (fragAlphaTest extZero envZero { caps0 with alphaTestFunction := .EQUAL }
          pushConstants0 inpZero = true ↔
        quantizeAlpha
          (textureStage extZero envZero { caps0 with alphaTestFunction := .EQUAL }
            pushConstants0 inpZero).w = pushConstants0.alphaRef)) :=
  ⟨⟨rfl, c4_alpha_test.1 extZero envZero caps0 pushConstants0 inpZero rfl⟩,
   ⟨rfl, c4_alpha_test.2.1 extZero envZero { caps0 with alphaTestFunction := .EQUAL }
      pushConstants0 inpZero rfl⟩⟩

/-- Claim C3: with alpha blending enabled the fragment program computes
((A - B) * C * 2) + D per channel with A, B, D drawn from
{source, destination, zero} and C from {source alpha, destination alpha,
fixed constant}, clamps to [0, 1], and forces the result alpha to the
texture-stage (source) alpha; for A = source, B = destination,
C = fixed(1.0), D = zero on source (1,0,0,1) and destination (0,1,0,1) the
pre-clamp RGB is (2, -2, 0) and the clamped result is (1, 0, 0) with alpha
1. -/
theorem c3_blend_formula :
    (∀ caps src dst fix, caps.hasAlphaBlending = true →
      blendStage caps src dst fix =
        clamp4
          { x := ((getAlphaABD caps.alphaA src dst).x - (getAlphaABD caps.alphaB src dst).x) *
                  (getAlphaC caps.alphaC src dst fix).x * 2 + (getAlphaABD caps.alphaD src dst).x
            y := ((getAlphaABD caps.alphaA src dst).y - (getAlphaABD caps.alphaB src dst).y) *
                  (getAlphaC caps.alphaC src dst fix).y * 2 + (getAlphaABD caps.alphaD src dst).y
            z := ((getAlphaABD caps.alphaA src dst).z - (getAlphaABD caps.alphaB src dst).z) *
                  (getAlphaC caps.alphaC src dst fix).z * 2 + (getAlphaABD caps.alphaD src dst).z
            w := src.w } 0 1) ∧
    (∀ caps src dst fix, caps.hasAlphaBlending = true → 0 ≤ src.w → src.w ≤ 1 →
      (blendStage caps src dst fix).w = src.w) ∧
    (∀ src dst : Vec4,
      getAlphaABD .CS src dst = { x := src.x, y := src.y, z := src.z } ∧
      getAlphaABD .CD src dst = { x := dst.x, y := dst.y, z := dst.z } ∧
      getAlphaABD .ZERO src dst = { x := 0, y := 0, z := 0 } ∧
      ∀ fix, getAlphaC .AS src dst fix = { x := src.w, y := src.w, z := src.w } ∧
        getAlphaC .AD src dst fix = { x := dst.w, y := dst.w, z := dst.w } ∧
        getAlphaC .FIX src dst fix = { x := fix, y := fix, z := fix }) ∧
    (((getAlphaABD capsBlendScn.alphaA vSrcScn vDstScn).x -
        (getAlphaABD capsBlendScn.alphaB vSrcScn vDstScn).x) *
        (getAlphaC capsBlendScn.alphaC vSrcScn vDstScn 1).x * 2 +
        (getAlphaABD capsBlendScn.alphaD vSrcScn vDstScn).x = 2 ∧
      ((getAlphaABD capsBlendScn.alphaA vSrcScn vDstScn).y -
        (getAlphaABD capsBlendScn.alphaB vSrcScn vDstScn).y) *
        (getAlphaC capsBlendScn.alphaC vSrcScn vDstScn 1).y * 2 +
        (getAlphaABD capsBlendScn.alphaD vSrcScn vDstScn).y = -2 ∧
      ((getAlphaABD capsBlendScn.alphaA vSrcScn vDstScn).z -
        (getAlphaABD capsBlendScn.alphaB vSrcScn vDstScn).z) *
        (getAlphaC capsBlendScn.alphaC vSrcScn vDstScn 1).z * 2 +
        (getAlphaABD capsBlendScn.alphaD vSrcScn vDstScn).z = 0) ∧
    blendStage capsBlendScn vSrcScn vDstScn 1 = { x := 1, y := 0, z := 0, w := 1 } := by
  refine ⟨?_, ?_, ?_, ?_, ?_⟩
  · intro caps src dst fix h
    simp only [blendStage, h, if_true]
  · intro caps src dst fix h h0 h1
    simp only [blendStage, h, if_true]
    show clampQ src.w 0 1 = src.w
    unfold clampQ
    rw [max_eq_left h0, min_eq_left h1]
  · intro src dst
    exact ⟨rfl, rfl, rfl, fun fix => ⟨rfl, rfl, rfl⟩⟩
  · refine ⟨?_, ?_, ?_⟩ <;>
      norm_num [capsBlendScn, caps0, getAlphaABD, getAlphaC, vSrcScn, vDstScn]
  · norm_num [blendStage, capsBlendScn, caps0, getAlphaABD, getAlphaC, vSrcScn, vDstScn,
      clamp4, clampQ]

/-- Claim C3 witness: the formula and forced-alpha parts instantiated on the
scenario operands. -/
theorem c3_blend_formula_check :
    (capsBlendScn.hasAlphaBlending = true ∧
      blendStage capsBlendScn vSrcScn vDstScn 1 =
        clamp4
          { x := ((getAlphaABD capsBlendScn.alphaA vSrcScn vDstScn).x -
                  (getAlphaABD capsBlendScn.alphaB vSrcScn vDstScn).x) *
                  (getAlphaC capsBlendScn.alphaC vSrcScn vDstScn 1).x * 2 +
                  (getAlphaABD capsBlendScn.alphaD vSrcScn vDstScn).x
            y := ((getAlphaABD capsBlendScn.alphaA vSrcScn vDstScn).y -
                  (getAlphaABD capsBlendScn.alphaB vSrcScn vDstScn).y) *
                  (getAlphaC capsBlendScn.alphaC vSrcScn vDstScn 1).y * 2 +
                  (getAlphaABD capsBlendScn.alphaD vSrcScn vDstScn).y
            z := ((getAlphaABD capsBlendScn.alphaA vSrcScn vDstScn).z -
                  (getAlphaABD capsBlendScn.alphaB vSrcScn vDstScn).z) *
                  (getAlphaC capsBlendScn.alphaC vSrcScn vDstScn 1).z * 2 +
                  (getAlphaABD capsBlendScn.alphaD vSrcScn vDstScn).z
            w := vSrcScn.w } 0 1) ∧
    (0 ≤ vSrcScn.w ∧ vSrcScn.w ≤ 1 ∧
      (blendStage capsBlendScn vSrcScn vDstScn 1).w = vSrcScn.w) :=
  ⟨⟨rfl, c3_blend_formula.1 capsBlendScn vSrcScn vDstScn 1 rfl⟩,
   ⟨zero_le_one, le_refl 1,
    c3_blend_formula.2.1 capsBlendScn vSrcScn vDstScn 1 rfl zero_le_one (le_refl 1)⟩⟩

/-- Claim C6: the per-axis texel clamp implements the configured mode as:
wrap is bitwise AND with size - 1 (agreeing with modulo for power-of-two
sizes on nonnegative coordinates), clamp-to-edge clamps into [0, size - 1],
region-clamp clamps into [clampMin, clampMax], and region-repeat is
(coordinate AND clampMin) OR clampMax. -/
theorem c6_texcoord_clamp :
    (∀ coord size cmin cmax : Int,
      clampTexCoord .REPEAT coord size cmin cmax = Int.land coord (size - 1) ∧
      clampTexCoord .CLAMP coord size cmin cmax = clampI coord 0 (size - 1) ∧
      clampTexCoord .REGION_CLAMP coord size cmin cmax = clampI coord cmin cmax ∧
      clampTexCoord .REGION_REPEAT coord size cmin cmax =
        Int.lor (Int.land coord cmin) cmax) ∧
    (∀ coord size cmin cmax : Int, cmin ≤ cmax →
      cmin ≤ clampTexCoord .REGION_CLAMP coord size cmin cmax ∧
      clampTexCoord .REGION_CLAMP coord size cmin cmax ≤ cmax) ∧
    (∀ coord size cmin cmax : Int, 1 ≤ size →
      0 ≤ clampTexCoord .CLAMP coord size cmin cmax ∧
      clampTexCoord .CLAMP coord size cmin cmax ≤ size - 1) ∧
    (∀ (c k : Nat) (cmin cmax : Int),
      clampTexCoord .REPEAT (c : Int) (((2 ^ k : Nat) : Int)) cmin cmax =
        (((c % 2 ^ k : Nat)) : Int)) := by
  refine ⟨fun coord size cmin cmax => ⟨rfl, rfl, rfl, rfl⟩, ?_, ?_, ?_⟩
  · intro coord size cmin cmax h
    unfold clampTexCoord clampI
    constructor
    · exact le_min (le_max_right _ _) h
    · exact min_le_right _ _
  · intro coord size cmin cmax h
    unfold clampTexCoord clampI
    constructor
    · exact le_min (le_max_right _ _) (by omega)
    · exact min_le_right _ _
  · intro c k cmin cmax
    show Int.land (c : Int) (((2 ^ k : Nat) : Int) - 1) = (((c % 2 ^ k : Nat)) : Int)
    have h1 : ((2 ^ k : Nat) : Int) - 1 = (((2 ^ k - 1 : Nat)) : Int) := by
      have h2 : 1 ≤ 2 ^ k := Nat.one_le_two_pow
      omega
    rw [h1]
    show ((c &&& (2 ^ k - 1) : Nat) : Int) = (((c % 2 ^ k : Nat)) : Int)
    exact congrArg Int.ofNat (nat_and_two_pow_sub_one c k)

/-- Claim C6 witness: the bounded-clamp parts and the wrap-as-modulo part at
concrete values. -/
theorem c6_texcoord_clamp_check :
    ((3 : Int) ≤ 10 ∧ (3 : Int) ≤ clampTexCoord .REGION_CLAMP 17 0 3 10 ∧
      clampTexCoord .REGION_CLAMP 17 0 3 10 ≤ 10) ∧
    ((1 : Int) ≤ 8 ∧ (0 : Int) ≤ clampTexCoord .CLAMP 12 8 0 0 ∧
      clampTexCoord .CLAMP 12 8 0 0 ≤ 8 - 1) ∧
    clampTexCoord .REPEAT ((13 : Nat) : Int) (((2 ^ 3 : Nat) : Int)) 0 0 =
      (((13 % 2 ^ 3 : Nat)) : Int) :=
  ⟨⟨by decide,
    (c6_texcoord_clamp.2.1 17 0 3 10 (by decide)).1,
    (c6_texcoord_clamp.2.1 17 0 3 10 (by decide)).2⟩,
   ⟨by decide,
    (c6_texcoord_clamp.2.2.1 12 8 0 0 (by decide)).1,
    (c6_texcoord_clamp.2.2.1 12 8 0 0 (by decide)).2⟩,
   c6_texcoord_clamp.2.2.2 13 3 0 0⟩

/-- Claim C2: the destination writes of the generated fragment program
happen only when the depth test passes; the committed destination color
merges the format-packed color with the previously read destination pixel
under the per-channel write mask, at the framebuffer format's storage width
(32-bit direct, 24-bit truncated, 16-bit packed); the source depth is
written only when the write-depth capability is on, truncated to the
depthbuffer format's bit width; and when blending or masking needs it, the
destination pixel merged against is the one read from the emulated memory at
the framebuffer address. -/
theorem c2_conditional_commit :
    (∀ ext env caps pc inp, fragDepthTest ext env caps pc inp = false →
      (fragmentShader ext env caps pc inp).writes = []) ∧
    (∀ ext env caps pc inp, fragDepthTest ext env caps pc inp = true →
      (fragmentShader ext env caps pc inp).writes =
        writeToFramebuffer ext caps.framebufferFormat (fbAddressOf ext env caps pc inp)
            pc.fbWriteMask (fragDstPair ext env caps pc inp).1 (fragDstColor ext env caps pc inp) ::
          (if caps.writeDepth then
            [writeToDepthbuffer caps.depthbufferFormat (depthAddressOf ext env caps pc inp)
              (fragSrcDepth inp)]
          else [])) ∧
    (∀ (ext : MemoryUtilsExt) (f : FbFormat) (a : Int) (m dp : Nat) (dc : Vec4),
      (writeToFramebuffer ext f a m dp dc).width = fbFormatBits f ∧
      (writeToFramebuffer ext f a m dp dc).addr = a ∧
      committedValue (writeToFramebuffer ext f a m dp dc) =
        (((match f with
            | .PSMCT32 | .PSMCT24 => ext.vec4ToPSM32 dc
            | .PSMCT16 | .PSMCT16S => ext.vec4ToPSM16 dc) &&& m) |||
          (dp &&& lnot32 m)) % 2 ^ fbFormatBits f) ∧
    (∀ (f : DepthFormat) (a : Int) (z : Nat),
      (writeToDepthbuffer f a z).width = depthFormatBits f ∧
      (writeToDepthbuffer f a z).addr = a ∧
      committedValue (writeToDepthbuffer f a z) = z % 2 ^ depthFormatBits f) ∧
    (∀ ext env caps pc inp, needsDstColor caps = true →
      (fragDstPair ext env caps pc inp).1 =
        (match caps.framebufferFormat with
          | .PSMCT32 => ext.memRead32 env.memory (fbAddressOf ext env caps pc inp)
          | .PSMCT24 => ext.memRead24 env.memory (fbAddressOf ext env caps pc inp)
          | .PSMCT16 | .PSMCT16S => ext.memRead16 env.memory (fbAddressOf ext env caps pc inp))) := by
  refine ⟨?_, ?_, ?_, ?_, ?_⟩
  · intro ext env caps pc inp h
    simp [fragmentShader, h]
  · intro ext env caps pc inp h
    simp [fragmentShader, h]
    rfl
  · intro ext f a m dp dc
    cases f <;> exact ⟨rfl, rfl, rfl⟩
  · intro f a z
    cases f with
    | PSMZ32 => exact ⟨rfl, rfl, rfl⟩
    | PSMZ24 =>
        refine ⟨rfl, rfl, ?_⟩
        show (z &&& 0xFFFFFF) % 2 ^ 24 = z % 2 ^ 24
        have h := nat_and_two_pow_sub_one z 24
        norm_num at h ⊢
        omega
    | PSMZ16 =>
        refine ⟨rfl, rfl, ?_⟩
        show (z &&& 0xFFFF) % 2 ^ 16 = z % 2 ^ 16
        have h := nat_and_two_pow_sub_one z 16
        norm_num at h ⊢
        omega
    | PSMZ16S =>
        refine ⟨rfl, rfl, ?_⟩
        show (z &&& 0xFFFF) % 2 ^ 16 = z % 2 ^ 16
        have h := nat_and_two_pow_sub_one z 16
        norm_num at h ⊢
        omega
  · intro ext env caps pc inp h
    cases hf : caps.framebufferFormat <;> simp [fragDstPair, h, hf]

/-- Claim C2 witness: the depth-gated parts instantiated on descriptors with
depth test never, depth test always with depth write, and masking on. -/
theorem c2_conditional_commit_check :
    (fragDepthTest extZero envZero { caps0 with depthTestFunction := .NEVER }
        pushConstants0 inpZero = false ∧
      (fragmentShader extZero envZero { caps0 with depthTestFunction := .NEVER }
        pushConstants0 inpZero).writes = []) ∧
    (fragDepthTest extZero envZero { caps0 with writeDepth := true } pushConstants0
        inpZero = true ∧
      (fragmentShader extZero envZero { caps0 with writeDepth := true } pushConstants0
          inpZero).writes =
        writeToFramebuffer extZero .PSMCT32
            (fbAddressOf extZero envZero { caps0 with writeDepth := true } pushConstants0 inpZero)
            pushConstants0.fbWriteMask
            (fragDstPair extZero envZero { caps0 with writeDepth := true } pushConstants0 inpZero).1
            (fragDstColor extZero envZero { caps0 with writeDepth := true } pushConstants0
              inpZero) ::
          [writeToDepthbuffer .PSMZ32
            (depthAddressOf extZero envZero { caps0 with writeDepth := true } pushConstants0 inpZero)
            (fragSrcDepth inpZero)]) ∧
    (needsDstColor { caps0 with maskColor := true } = true ∧
      (fragDstPair extZero envZero { caps0 with maskColor := true } pushConstants0 inpZero).1 =
        extZero.memRead32 envZero.memory
          (fbAddressOf extZero envZero { caps0 with maskColor := true } pushConstants0 inpZero)) :=
  ⟨⟨rfl, c2_conditional_commit.1 extZero envZero { caps0 with depthTestFunction := .NEVER }
      pushConstants0 inpZero rfl⟩,
   ⟨rfl, c2_conditional_commit.2.1 extZero envZero { caps0 with writeDepth := true }
      pushConstants0 inpZero rfl⟩,
   ⟨rfl, c2_conditional_commit.2.2.2.2 extZero envZero { caps0 with maskColor := true }
      pushConstants0 inpZero rfl⟩⟩

theorem fragPreOps_count_beginInterlock (caps : PIPELINE_CAPS) :
    (fragPreOps caps).count ShaderOp.beginInterlock = 0 := by
  unfold fragPreOps
  split <;> decide

theorem fragPreOps_count_endInterlock (caps : PIPELINE_CAPS) :
    (fragPreOps caps).count ShaderOp.endInterlock = 0 := by
  unfold fragPreOps
  split <;> decide

theorem fragCriticalOps_count_beginInterlock (caps : PIPELINE_CAPS) :
    (fragCriticalOps caps).count ShaderOp.beginInterlock = 0 := by
  unfold fragCriticalOps
  split <;> split <;> split <;> decide

theorem fragCriticalOps_count_endInterlock (caps : PIPELINE_CAPS) :
    (fragCriticalOps caps).count ShaderOp.endInterlock = 0 := by
  unfold fragCriticalOps
  split <;> split <;> split <;> decide

/-- Claim C10: in every generated fragment program the entire destination
read-modify-write sequence sits inside the invocation-interlock region: the
emitted operation stream decomposes around exactly one
BeginInvocationInterlock and one EndInvocationInterlock, with no destination
access of the emulated-memory buffer before the begin marker or after the
end marker; and under the interlock guarantee — the critical regions of two
fragments covering the same address execute without overlap, in
primitive-submission order — every destination access of the earlier
fragment precedes every destination access of the later one. -/
theorem c10_interlock_containment :
    (∀ caps, fragmentOps caps =
      fragPreOps caps ++ ShaderOp.beginInterlock ::
        (fragCriticalOps caps ++ ShaderOp.endInterlock :: fragPostOps)) ∧
    (∀ caps, (fragPreOps caps).all (fun o => ! o.isDstAccess) = true) ∧
    (fragPostOps.all (fun o => ! o.isDstAccess) = true) ∧
    (∀ caps, (fragmentOps caps).count ShaderOp.beginInterlock = 1 ∧
      (fragmentOps caps).count ShaderOp.endInterlock = 1) ∧
    (∀ (caps : PIPELINE_CAPS) (t A B C : List (Bool × ShaderOp)),
      t = A ++ (fragCriticalOps caps).map (fun o => (false, o)) ++ B ++
          (fragCriticalOps caps).map (fun o => (true, o)) ++ C →
      (∀ x ∈ A, (x : Bool × ShaderOp).2.isDstAccess = false) →
      (∀ x ∈ B, (x : Bool × ShaderOp).2.isDstAccess = false) →
      (∀ x ∈ C, (x : Bool × ShaderOp).2.isDstAccess = false) →
      ∃ u v, t = u ++ v ∧
        (∀ x ∈ u, (x : Bool × ShaderOp).1 = true → x.2.isDstAccess = false) ∧
        (∀ x ∈ v, (x : Bool × ShaderOp).1 = false → x.2.isDstAccess = false)) := by
  refine ⟨?_, ?_, by decide, ?_, ?_⟩
  · intro caps
    simp [fragmentOps]
  · intro caps
    unfold fragPreOps
    split <;> decide
  · intro caps
    constructor
    · show (fragPreOps caps ++ [ShaderOp.beginInterlock] ++ fragCriticalOps caps ++
        [ShaderOp.endInterlock] ++ fragPostOps).count ShaderOp.beginInterlock = 1
      simp [List.count_append, fragPreOps_count_beginInterlock,
        fragCriticalOps_count_beginInterlock]
      decide
    · show (fragPreOps caps ++ [ShaderOp.beginInterlock] ++ fragCriticalOps caps ++
        [ShaderOp.endInterlock] ++ fragPostOps).count ShaderOp.endInterlock = 1
      simp [List.count_append, fragPreOps_count_endInterlock,
        fragCriticalOps_count_endInterlock]
      decide
  · intro caps t A B C ht hA hB hC
    refine ⟨A ++ (fragCriticalOps caps).map (fun o => (false, o)),
      B ++ (fragCriticalOps caps).map (fun o => (true, o)) ++ C, ?_, ?_, ?_⟩
    · rw [ht]
      simp [List.append_assoc]
    · intro x hx htrue
      rw [List.mem_append] at hx
      rcases hx with hx | hx
      · exact hA x hx
      · obtain ⟨o, _, rfl⟩ := List.mem_map.mp hx
        exact Bool.noConfusion htrue
    · intro x hx hfalse
      rw [List.mem_append, List.mem_append] at hx
      rcases hx with (hx | hx) | hx
      · exact hB x hx
      · obtain ⟨o, _, rfl⟩ := List.mem_map.mp hx
        exact Bool.noConfusion hfalse
      · exact hC x hx

/-- Claim C10 witness: the serialization part instantiated on two
back-to-back critical regions of the zero descriptor. -/
theorem c10_interlock_containment_check :
    ∃ u v,
      ([] : List (Bool × ShaderOp)) ++ (fragCriticalOps caps0).map (fun o => (false, o)) ++ [] ++
          (fragCriticalOps caps0).map (fun o => (true, o)) ++ [] = u ++ v ∧
      (∀ x ∈ u, (x : Bool × ShaderOp).1 = true → x.2.isDstAccess = false) ∧
      (∀ x ∈ v, (x : Bool × ShaderOp).1 = false → x.2.isDstAccess = false) :=
  c10_interlock_containment.2.2.2.2 caps0
    (([] : List (Bool × ShaderOp)) ++ (fragCriticalOps caps0).map (fun o => (false, o)) ++ [] ++
      (fragCriticalOps caps0).map (fun o => (true, o)) ++ [])
    [] [] [] rfl (by simp) (by simp) (by simp)

end GSH
